import Mathlib

/-
  Verification development for the hv node-local orchestration daemon
  (vm/network lifecycle managers, command protocol layer, storage and
  network-daemon collaborators, YANG document generation and validation).

  The C sources are embedded shallowly:
  * pure string/parsing helpers (strtok, atoi, strtoull, sscanf-style
    scanning) become Lean functions on List Char / String;
  * the mutable world (ZFS datasets, per-entity config.xml files, pid
    files, netd exchanges, forked processes) becomes an explicit state
    record `St` threaded through every operation;
  * fallible externals (libzfs, fopen on config files, the netd socket,
    /dev/vmm, fork, ioctl, kill) are driven by a failure-injection
    environment `Env` of booleans;
  * C ints are Int, uint32/uint64 values are Nat (reduced mod 2^32/2^64
    exactly where the C conversions do).
-/

namespace Hv

/-! ### Character and numeric-string helpers (ctype / stdlib models) -/

/-- C `isspace`: the six standard whitespace characters. -/
def cIsSpace (c : Char) : Bool :=
  c == ' ' || c == '\t' || c == '\n' || c == '\x0b' || c == '\x0c' || c == '\r'

/-- C `isdigit`. -/
def cIsDigit (c : Char) : Bool := decide ('0' ≤ c ∧ c ≤ '9')

/-- Value of a decimal digit string (most significant first). -/
def digitsVal (ds : List Char) : Nat :=
  ds.foldl (fun a c => a * 10 + (c.toNat - '0'.toNat)) 0

/-- Scan a maximal decimal digit run; fails when there is no digit.
    Returns the value and the unconsumed remainder. -/
def scanDigits (l : List Char) : Option (Nat × List Char) :=
  let ds := l.takeWhile cIsDigit
  if ds.isEmpty then none else some (digitsVal ds, l.dropWhile cIsDigit)

/-- `sscanf` `%d` conversion: skip whitespace, optional sign, digit run.
    Values are unbounded Int (C int overflow is undefined behaviour and is
    not modelled; all inputs of interest fit). -/
def scanInt (l : List Char) : Option (Int × List Char) :=
  let l1 := l.dropWhile cIsSpace
  match l1 with
  | [] => none
  | c :: r =>
    if c = '-' then (scanDigits r).map (fun p => (-(p.1 : Int), p.2))
    else if c = '+' then (scanDigits r).map (fun p => ((p.1 : Int), p.2))
    else (scanDigits (c :: r)).map (fun p => ((p.1 : Int), p.2))

/-- C `atoi`: whitespace, optional sign, digit run; 0 when no digits. -/
def atoi (s : String) : Int :=
  let l := s.data.dropWhile cIsSpace
  match l with
  | '-' :: r => -(digitsVal (r.takeWhile cIsDigit) : Int)
  | '+' :: r => (digitsVal (r.takeWhile cIsDigit) : Int)
  | _ => (digitsVal (l.takeWhile cIsDigit) : Int)

/-- C `strtoull(s, NULL, 10)`: whitespace, optional sign, digit run;
    clamps to ULLONG_MAX on overflow; a leading minus negates in
    unsigned (mod 2^64) arithmetic. -/
def strtoull10 (s : String) : Nat :=
  let l := s.data.dropWhile cIsSpace
  let p : Bool × List Char :=
    match l with
    | '-' :: r => (true, r)
    | '+' :: r => (false, r)
    | _ => (false, l)
  let n := digitsVal (p.2.takeWhile cIsDigit)
  let v := min n (2 ^ 64 - 1)
  if p.1 then (2 ^ 64 - v) % 2 ^ 64 else v

/-- C conversion from int to uint32_t (reduction mod 2^32). -/
def intToUint32 (i : Int) : Nat := (i % (2 ^ 32 : Int)).toNat

/-- `strncpy`/`snprintf` into a fixed buffer keeps at most `n` characters. -/
def strTake (n : Nat) (s : String) : String := ⟨s.data.take n⟩

/-! ### Tokenization (strtok with separators " \t\n") -/

/-- Separator set used by every `strtok` call in commands.c. -/
def isSep (c : Char) : Bool := c == ' ' || c == '\t' || c == '\n'

/-- Accumulating tokenizer; `cur` holds the current token reversed. -/
def tokenizeAux : List Char → List Char → List String
  | [], cur => if cur.isEmpty then [] else [⟨cur.reverse⟩]
  | c :: cs, cur =>
    if isSep c then
      if cur.isEmpty then tokenizeAux cs [] else ⟨cur.reverse⟩ :: tokenizeAux cs []
    else tokenizeAux cs (c :: cur)

/-- The sequence of tokens `strtok(cmd, " \t\n")` produces. -/
def tokenize (s : String) : List String := tokenizeAux s.data []

/-- A string that survives tokenization as one whole token: nonempty and
    free of separator characters. -/
def tokenClean (s : String) : Prop := s.data ≠ [] ∧ ∀ c ∈ s.data, isSep c = false

instance (s : String) : Decidable (tokenClean s) := by
  unfold tokenClean; infer_instance

/-! ### Data model (common.h) -/

/-- vm_state_t. -/
inductive VmStateT where
  | stopped
  | running
  | paused
  | error
deriving DecidableEq

/-- vm_config_t (the unused config_path field is omitted; fixed char[64]
    buffers mean the string fields hold at most 63 characters, which the
    operations below enforce via `strTake`). -/
structure VmConfigT where
  name : String
  cpu_cores : Int
  memory_mb : Nat
  boot_device : String
  state : VmStateT
deriving DecidableEq

/-- network_type_t (single value). -/
inductive NetworkTypeT where
  | bridge
deriving DecidableEq

/-- network_def_t. -/
structure NetworkDefT where
  name : String
  ntype : NetworkTypeT
  fib_id : Nat
  physical_interface : String
  bridge_name : String
deriving DecidableEq

/-- Content of a file the orchestrator reads or writes: a VM record, a
    network record, or a pid file.  Serialization mechanics are out of
    scope (spec §1); a saved record loads back unchanged, which holds for
    the XML round trip at the schema level. -/
inductive HvFileT where
  | vmCfg (v : VmConfigT)
  | netCfg (n : NetworkDefT)
  | pidFile (p : Nat)
deriving DecidableEq

/-- Whole-world state: ZFS datasets (by path), files (by path), the log of
    documents pushed at the netd socket, and the pids of forked children. -/
structure St where
  datasets : List String
  files : List (String × HvFileT)
  netdSent : List String
  spawned : List Nat
deriving DecidableEq

/-- Failure injection for the external collaborators: libzfs, fopen of the
    two config files, the netd socket, /dev/vmm open, fork, the
    VM_SUSPEND ioctl, kill, and the pid fork returns. -/
structure Env where
  zfsOk : Bool
  saveVmOk : Bool
  saveNetOk : Bool
  netdOk : Bool
  vmmOpenOk : Bool
  forkOk : Bool
  suspendOk : Bool
  killOk : Bool
  nextPid : Nat
deriving DecidableEq

/-! ### Paths (common.h layout constants) -/

def VM_BASE_PATH : String := "/hv/vm"

def NETWORK_BASE_PATH : String := "/hv/networks"

def vmDatasetPath (name : String) : String := VM_BASE_PATH ++ "/" ++ name

def vmDisksPath (name : String) : String := vmDatasetPath name ++ "/disks"

def vmStatePath (name : String) : String := vmDatasetPath name ++ "/state"

def vmConfigPath (name : String) : String := vmDatasetPath name ++ "/config.xml"

def vmPidPath (name : String) : String := vmStatePath name ++ "/pid"

def netDatasetPath (name : String) : String := NETWORK_BASE_PATH ++ "/" ++ name

def netConfigPath (name : String) : String := netDatasetPath name ++ "/config.xml"

/-- `p` lies in the subtree rooted at `root` (it is `root` itself or a
    path strictly below it). -/
def underPath (root p : String) : Bool := p == root || (root ++ "/").isPrefixOf p

/-! ### File-map helpers -/

def lookupFile : List (String × HvFileT) → String → Option HvFileT
  | [], _ => none
  | (k, f) :: rest, key => if k = key then some f else lookupFile rest key

def eraseFile (files : List (String × HvFileT)) (key : String) : List (String × HvFileT) :=
  files.filter (fun kv => !(kv.1 == key))

/-- `fopen(key, "w")` + write: replaces any previous content at `key`. -/
def writeFile (files : List (String × HvFileT)) (key : String) (f : HvFileT) :
    List (String × HvFileT) :=
  (key, f) :: eraseFile files key

/-! ### Storage backend (zfs_manager.c over libzfs)

libzfs itself is not part of the repository; its four operations are
modelled from the spec (§1, §6): create/destroy a hierarchical dataset and
set a key-value property.  Destroying a dataset takes its subtree (and the
files living under its mountpoint) with it; creation of an already
existing dataset is reported by the C code as success without change. -/

/-- zfs_create_dataset: succeeds without change when the dataset already
    exists; otherwise records the new dataset.  Fails when libzfs is
    unavailable. -/
def zfs_create_dataset (dataset : String) (_ztype : String) (st : St) (env : Env) :
    St × Bool :=
  if env.zfsOk = false then (st, false)
  else if dataset ∈ st.datasets then (st, true)
  else ({ st with datasets := st.datasets ++ [dataset] }, true)

/-- zfs_destroy_dataset: success without change when the dataset does not
    exist; otherwise removes the dataset subtree and the files under it. -/
def zfs_destroy_dataset (dataset : String) (st : St) (env : Env) : St × Bool :=
  if env.zfsOk = false then (st, false)
  else if dataset ∈ st.datasets then
    ({ st with
        datasets := st.datasets.filter (fun d => !(underPath dataset d)),
        files := st.files.filter (fun kv => !(underPath dataset kv.1)) }, true)
  else (st, true)

/-- zfs_set_property: fails when the dataset is missing; properties are
    never read back by the code under study, so no property state is
    kept.  Every caller in scope ignores the result. -/
def zfs_set_property (dataset _property _value : String) (st : St) (env : Env) : Bool :=
  env.zfsOk && decide (dataset ∈ st.datasets)

/-- zfs_create_vm_structure: VM dataset plus disks/ and state/ sub-areas,
    with partial rollback on intermediate failure (source lines 239-271). -/
def zfs_create_vm_structure (vm_name : String) (st : St) (env : Env) : St × Bool :=
  let vm_path := vmDatasetPath vm_name
  let r1 := zfs_create_dataset vm_path "filesystem" st env
  if r1.2 = false then (r1.1, false)
  else
    let r2 := zfs_create_dataset (vmDisksPath vm_name) "filesystem" r1.1 env
    if r2.2 = false then ((zfs_destroy_dataset vm_path r2.1 env).1, false)
    else
      let r3 := zfs_create_dataset (vmStatePath vm_name) "filesystem" r2.1 env
      if r3.2 = false then
        let r4 := zfs_destroy_dataset (vmDisksPath vm_name) r3.1 env
        ((zfs_destroy_dataset vm_path r4.1 env).1, false)
      else
        -- both property-set results are ignored by the source
        let _ := zfs_set_property vm_path "hvd:type" "vm" r3.1 env
        let _ := zfs_set_property vm_path "hvd:name" vm_name r3.1 env
        (r3.1, true)

/-- zfs_create_network_structure (source lines 278-293). -/
def zfs_create_network_structure (network_name : String) (st : St) (env : Env) :
    St × Bool :=
  let r1 := zfs_create_dataset (netDatasetPath network_name) "filesystem" st env
  if r1.2 = false then (r1.1, false)
  else
    let _ := zfs_set_property (netDatasetPath network_name) "hvd:type" "network" r1.1 env
    let _ := zfs_set_property (netDatasetPath network_name) "hvd:name" network_name r1.1 env
    (r1.1, true)

/-! ### Configuration store (xml_config.c)

The serialization library is out of scope (spec §1); what is modelled is
the store contract: a record is written to `<base>/<record name>/config.xml`
(so writing requires that directory — the entity's dataset — to exist, and
destroying the dataset removes the record), and a load returns exactly the
record last saved at that path. -/

/-- xml_save_vm_config: writes to VM_BASE_PATH/<vm.name>/config.xml; the
    fopen fails when the directory (the VM dataset) is absent or on
    injected I/O failure. -/
def xml_save_vm_config (vm : VmConfigT) (st : St) (env : Env) : St × Bool :=
  if env.saveVmOk = true ∧ vmDatasetPath vm.name ∈ st.datasets then
    ({ st with files := writeFile st.files (vmConfigPath vm.name) (.vmCfg vm) }, true)
  else (st, false)

/-- xml_load_vm_config. -/
def xml_load_vm_config (vm_name : String) (st : St) : Option VmConfigT :=
  match lookupFile st.files (vmConfigPath vm_name) with
  | some (.vmCfg v) => some v
  | _ => none

/-- xml_save_network_config. -/
def xml_save_network_config (network : NetworkDefT) (st : St) (env : Env) : St × Bool :=
  if env.saveNetOk = true ∧ netDatasetPath network.name ∈ st.datasets then
    ({ st with files := writeFile st.files (netConfigPath network.name) (.netCfg network) },
      true)
  else (st, false)

/-- xml_load_network_config. -/
def xml_load_network_config (network_name : String) (st : St) : Option NetworkDefT :=
  match lookupFile st.files (netConfigPath network_name) with
  | some (.netCfg n) => some n
  | _ => none

/-! ### YANG document model (yang_netd.h, netd_integration.c) -/

def NETD_YANG_NAMESPACE : String := "urn:netd:simple"

/-- yang_interface_t; the (address, family) pairs stand for the parallel
    addresses/families arrays up to address_count. -/
structure YangInterfaceT where
  name : String
  enabled : Bool
  fib : Nat
  addresses : List (String × String)
deriving DecidableEq

/-- yang_route_t. -/
structure YangRouteT where
  destination : String
  gateway : String
  fib : Nat
  description : String
deriving DecidableEq

/-- yang_netd_config_t. -/
structure YangNetdConfigT where
  interfaces : List YangInterfaceT
  routes : List YangRouteT
deriving DecidableEq

/-- First snprintf of yang_generate_interface_xml. -/
def ifaceHeader (i : YangInterfaceT) : String :=
  "<interface xmlns=\"" ++ NETD_YANG_NAMESPACE ++ "\">\n  <name>" ++ i.name ++
    "</name>\n  <enabled>" ++ (if i.enabled then "true" else "false") ++
    "</enabled>\n  <fib>" ++ toString i.fib ++ "</fib>\n"

/-- Per-address snprintf of yang_generate_interface_xml. -/
def addrPiece (p : String × String) : String :=
  "  <address>\n    <ip>" ++ p.1 ++ "</ip>\n    <family>" ++ p.2 ++
    "</family>\n  </address>\n"

def ifaceFooter : String := "</interface>\n"

/-- The appends yang_generate_interface_xml performs, in order. -/
def ifaceXmlPieces (i : YangInterfaceT) : List String :=
  ifaceHeader i :: (i.addresses.map addrPiece ++ [ifaceFooter])

/-- Sum of the lengths of a piece list. -/
def sumLens (ps : List String) : Nat := (ps.map String.length).sum

/-- Full rendering of one interface element. -/
def ifaceXml (i : YangInterfaceT) : String := String.join (ifaceXmlPieces i)

/-- Running offsets after each append, starting from offset `o`
    (each snprintf returns the would-be length of what it formatted,
    and the C code accumulates `offset += snprintf(...)`). -/
def offsetsFrom (o : Nat) : List String → List Nat
  | [] => []
  | p :: ps => (o + p.length) :: offsetsFrom (o + p.length) ps

/-- yang_generate_interface_xml (source lines 51-74): accumulates the
    would-be offsets of its appends and succeeds iff the final offset is
    strictly below the buffer size (the content is only meaningful on
    success). -/
def yang_generate_interface_xml (i : YangInterfaceT) (buffer_size : Nat) :
    String × Bool :=
  (ifaceXml i, decide (sumLens (ifaceXmlPieces i) < buffer_size))

/-- Single snprintf of yang_generate_route_xml. -/
def routeXml (r : YangRouteT) : String :=
  "<route xmlns=\"" ++ NETD_YANG_NAMESPACE ++ "\">\n  <destination>" ++ r.destination ++
    "</destination>\n  <gateway>" ++ r.gateway ++ "</gateway>\n  <fib>" ++
    toString r.fib ++ "</fib>\n  <description>" ++ r.description ++
    "</description>\n</route>\n"

/-- yang_generate_route_xml (source lines 83-95). -/
def yang_generate_route_xml (r : YangRouteT) (buffer_size : Nat) : String × Bool :=
  (routeXml r, decide ((routeXml r).length < buffer_size))

def configHeader : String :=
  "<?xml version=\"1.0\" encoding=\"UTF-8\"?>\n<netd-config xmlns=\"" ++
    NETD_YANG_NAMESPACE ++ "\">\n"

def configFooter : String := "</netd-config>\n"

/-- Interface loop of yang_generate_config_xml: each interface is first
    rendered into a local 1024-byte buffer, then appended; the offset is
    checked against the main buffer size after every append. -/
def genIfacesAux (cap : Nat) : List YangInterfaceT → Nat → Option Nat
  | [], o => some o
  | i :: is, o =>
    let r := yang_generate_interface_xml i 1024
    if r.2 = false then none
    else
      let o1 := o + r.1.length
      if cap ≤ o1 then none else genIfacesAux cap is o1

/-- Route loop of yang_generate_config_xml (local 512-byte buffer). -/
def genRoutesAux (cap : Nat) : List YangRouteT → Nat → Option Nat
  | [], o => some o
  | r :: rs, o =>
    let g := yang_generate_route_xml r 512
    if g.2 = false then none
    else
      let o1 := o + g.1.length
      if cap ≤ o1 then none else genRoutesAux cap rs o1

/-- The appends yang_generate_config_xml performs on the main buffer. -/
def configPieces (cfg : YangNetdConfigT) : List String :=
  configHeader :: (cfg.interfaces.map ifaceXml ++ cfg.routes.map routeXml ++ [configFooter])

/-- Full rendering of the configuration document. -/
def configXmlStr (cfg : YangNetdConfigT) : String := String.join (configPieces cfg)

/-- yang_generate_config_xml (source lines 104-135): header append and
    check, interface loop, route loop, footer append and final check. -/
def yang_generate_config_xml (cfg : YangNetdConfigT) (buffer_size : Nat) :
    String × Bool :=
  (configXmlStr cfg,
    if buffer_size ≤ configHeader.length then false
    else
      match genIfacesAux buffer_size cfg.interfaces configHeader.length with
      | none => false
      | some o1 =>
        match genRoutesAux buffer_size cfg.routes o1 with
        | none => false
        | some o2 => decide (o2 + configFooter.length < buffer_size))

/-! ### netd protocol client (netd_integration.c) -/

/-- netd_send_yang_config: pushes the document at the netd socket; the
    round trip succeeds or fails per the environment. -/
def netd_send_yang_config (xml_config : String) (st : St) (env : Env) : St × Bool :=
  ({ st with netdSent := st.netdSent ++ [xml_config] }, env.netdOk)

/-- netd_configure_bridge (source lines 213-238): one enabled interface
    with the given fib, rendered into an 8192-byte buffer, then sent. -/
def netd_configure_bridge (bridge_name : String) (fib_id : Nat) (st : St) (env : Env) :
    St × Bool :=
  let bridge : YangInterfaceT :=
    { name := strTake 63 bridge_name, enabled := true, fib := fib_id, addresses := [] }
  let g := yang_generate_config_xml { interfaces := [bridge], routes := [] } 8192
  if g.2 = false then (st, false)
  else netd_send_yang_config g.1 st env

/-- netd_remove_bridge (source lines 388-412): same document with the
    interface disabled (fib left 0 by the zero initializer). -/
def netd_remove_bridge (bridge_name : String) (st : St) (env : Env) : St × Bool :=
  let bridge : YangInterfaceT :=
    { name := strTake 63 bridge_name, enabled := false, fib := 0, addresses := [] }
  let g := yang_generate_config_xml { interfaces := [bridge], routes := [] } 8192
  if g.2 = false then (st, false)
  else netd_send_yang_config g.1 st env

/-- netd_configure_tap (source lines 247-273). -/
def netd_configure_tap (tap_name : String) (_bridge_name : String) (fib_id : Nat)
    (st : St) (env : Env) : St × Bool :=
  let tap : YangInterfaceT :=
    { name := strTake 63 tap_name, enabled := true, fib := fib_id, addresses := [] }
  let g := yang_generate_config_xml { interfaces := [tap], routes := [] } 8192
  if g.2 = false then (st, false)
  else netd_send_yang_config g.1 st env

/-- netd_remove_tap (source lines 357-381). -/
def netd_remove_tap (tap_name : String) (st : St) (env : Env) : St × Bool :=
  let tap : YangInterfaceT :=
    { name := strTake 63 tap_name, enabled := false, fib := 0, addresses := [] }
  let g := yang_generate_config_xml { interfaces := [tap], routes := [] } 8192
  if g.2 = false then (st, false)
  else netd_send_yang_config g.1 st env

/-! ### Address validation (netd_integration.c lines 536-601) -/

/-- The four-conversion sscanf of yang_validate_ipv4_address:
    `sscanf(address, "%d.%d.%d.%d", ...)`; literal dots must match
    exactly, each %d skips whitespace and takes an optional sign. -/
def ipv4Scan (l : List Char) : Option (Int × Int × Int × Int) :=
  match scanInt l with
  | none => none
  | some (a, r1) =>
    match r1 with
    | '.' :: t1 =>
      match scanInt t1 with
      | none => none
      | some (b, r2) =>
        match r2 with
        | '.' :: t2 =>
          match scanInt t2 with
          | none => none
          | some (c, r3) =>
            match r3 with
            | '.' :: t3 =>
              match scanInt t3 with
              | none => none
              | some (d, _) => some (a, b, c, d)
            | _ => none
        | _ => none
    | _ => none

/-- yang_validate_ipv4_address: all four conversions succeed and every
    octet lies in 0..255 (trailing input after the fourth integer is
    ignored by sscanf). -/
def yang_validate_ipv4_address (address : String) : Bool :=
  match ipv4Scan address.data with
  | none => false
  | some (a, b, c, d) =>
    decide (0 ≤ a ∧ a ≤ 255 ∧ 0 ≤ b ∧ b ≤ 255 ∧ 0 ≤ c ∧ c ≤ 255 ∧ 0 ≤ d ∧ d ≤ 255)

/-- yang_validate_ipv6_address: at least two colons. -/
def yang_validate_ipv6_address (address : String) : Bool :=
  decide (2 ≤ address.data.count ':')

/-- `strchr(prefix, '/')`: split at the first slash. -/
def splitAtSlash : List Char → Option (List Char × List Char)
  | [] => none
  | c :: r =>
    if c = '/' then some ([], r)
    else (splitAtSlash r).map (fun p => (c :: p.1, p.2))

/-- yang_validate_ip_prefix: split at the first '/', require the address
    part to fit the local 64-byte buffer, read a %d prefix length in
    0..128, then run the family check chosen by presence of a colon. -/
def yang_validate_ip_prefix (pfx : String) : Bool :=
  match splitAtSlash pfx.data with
  | none => false
  | some (addr, rest) =>
    if 64 ≤ addr.length then false
    else
      match scanInt rest with
      | none => false
      | some (plen, _) =>
        if plen < 0 ∨ 128 < plen then false
        else if addr.contains ':' then yang_validate_ipv6_address ⟨addr⟩
        else yang_validate_ipv4_address ⟨addr⟩

/-! ### VM lifecycle manager (vm_manager.c) -/

/-- vm_create (source lines 77-113): storage layout, fresh record with
    state Stopped and boot device disk0, persist; on persist failure the
    VM dataset is rolled back.  create_vmm_device (lines 50-68) returns
    success on every path and is elided. -/
def vm_create (vm_name : String) (cpu_cores : Int) (memory_mb : Nat) (st : St)
    (env : Env) : St × Bool :=
  let r1 := zfs_create_vm_structure vm_name st env
  if r1.2 = false then (r1.1, false)
  else
    let vm : VmConfigT :=
      { name := strTake 63 vm_name, cpu_cores := cpu_cores, memory_mb := memory_mb,
        boot_device := "disk0", state := .stopped }
    let r2 := xml_save_vm_config vm r1.1 env
    if r2.2 = false then ((zfs_destroy_dataset (vmDatasetPath vm_name) r2.1 env).1, false)
    else (r2.1, true)

/-- fopen(pid_file, "w") + fprintf: written only when the state directory
    exists; the source ignores a failed open. -/
def writePidFile (vm_name : String) (pid : Nat) (st : St) : St :=
  if vmStatePath vm_name ∈ st.datasets then
    { st with files := writeFile st.files (vmPidPath vm_name) (.pidFile pid) }
  else st

/-- vm_start (source lines 120-184): load; no-op success when already
    Running; open /dev/vmm and fork; the parent marks the record Running
    (ignoring the save result) and writes the pid file. -/
def vm_start (vm_name : String) (st : St) (env : Env) : St × Bool :=
  match xml_load_vm_config vm_name st with
  | none => (st, false)
  | some vm =>
    if vm.state = .running then (st, true)
    else if env.vmmOpenOk = false then (st, false)
    else if env.forkOk = false then (st, false)
    else
      let pid := env.nextPid
      let st1 := { st with spawned := st.spawned ++ [pid] }
      let st2 := (xml_save_vm_config { vm with state := .running } st1 env).1
      (writePidFile vm_name pid st2, true)

/-- vm_stop (source lines 191-268): load; no-op success when not Running;
    read the pid file; suspend via the VMM device with SIGTERM fallback;
    wait/escalate (no further state effect); mark the record Stopped
    (ignoring the save result) and unlink the pid file. -/
def vm_stop (vm_name : String) (st : St) (env : Env) : St × Bool :=
  match xml_load_vm_config vm_name st with
  | none => (st, false)
  | some vm =>
    if vm.state ≠ .running then (st, true)
    else
      match lookupFile st.files (vmPidPath vm_name) with
      | some (.pidFile _) =>
        let sigOk :=
          if env.vmmOpenOk then (if env.suspendOk then true else env.killOk)
          else env.killOk
        if sigOk = false then (st, false)
        else
          let st1 := (xml_save_vm_config { vm with state := .stopped } st env).1
          ({ st1 with files := eraseFile st1.files (vmPidPath vm_name) }, true)
      | _ => (st, false)

/-- vm_destroy (source lines 275-290): best-effort stop (result ignored),
    then destroy the VM dataset. -/
def vm_destroy (vm_name : String) (st : St) (env : Env) : St × Bool :=
  let r1 := vm_stop vm_name st env
  zfs_destroy_dataset (vmDatasetPath vm_name) r1.1 env

/-! ### Network lifecycle manager (network_manager.c) -/

/-- network_create (source lines 48-85): storage layout; record with
    derived bridge name (snprintf into a 64-byte buffer); persist; realize
    the bridge on netd; either failure after allocation rolls the dataset
    back. -/
def network_create (network_name : String) (fib_id : Nat)
    (physical_interface : Option String) (st : St) (env : Env) : St × Bool :=
  let r1 := zfs_create_network_structure network_name st env
  if r1.2 = false then (r1.1, false)
  else
    let network : NetworkDefT :=
      { name := strTake 63 network_name, ntype := .bridge, fib_id := fib_id,
        physical_interface :=
          match physical_interface with
          | some p => strTake 63 p
          | none => "",
        bridge_name := strTake 63 ("bridge_" ++ network_name) }
    let r2 := xml_save_network_config network r1.1 env
    if r2.2 = false then
      ((zfs_destroy_dataset (netDatasetPath network_name) r2.1 env).1, false)
    else
      let r3 := netd_configure_bridge network.bridge_name fib_id r2.1 env
      if r3.2 = false then
        ((zfs_destroy_dataset (netDatasetPath network_name) r3.1 env).1, false)
      else (r3.1, true)

/-- network_destroy (source lines 92-116): load; remove the bridge on
    netd; only on success destroy the network dataset. -/
def network_destroy (network_name : String) (st : St) (env : Env) : St × Bool :=
  match xml_load_network_config network_name st with
  | none => (st, false)
  | some network =>
    let r1 := netd_remove_bridge network.bridge_name st env
    if r1.2 = false then (r1.1, false)
    else zfs_destroy_dataset (netDatasetPath network_name) r1.1 env

/-- network_create_tap (source lines 125-140). -/
def network_create_tap (_vm_name network_name tap_name : String) (st : St) (env : Env) :
    St × Bool :=
  match xml_load_network_config network_name st with
  | none => (st, false)
  | some network => netd_configure_tap tap_name network.bridge_name network.fib_id st env

/-- network_remove_tap (source lines 147-155). -/
def network_remove_tap (tap_name : String) (st : St) (env : Env) : St × Bool :=
  netd_remove_tap tap_name st env

/-- network_set_fib (source lines 216-239): load, update the field, save.
    A netd command string is formatted but never sent (lines 226-231). -/
def network_set_fib (network_name : String) (fib_id : Nat) (st : St) (env : Env) :
    St × Bool :=
  match xml_load_network_config network_name st with
  | none => (st, false)
  | some network =>
    let network1 := { network with fib_id := fib_id }
    let _cmd := "set interface " ++ network.bridge_name ++ " fib " ++ toString fib_id
    xml_save_network_config network1 st env

/-- network_set_physical_interface (source lines 247-270): load, strncpy
    the field, save.  A netd command string is formatted but never sent. -/
def network_set_physical_interface (network_name physical_interface : String) (st : St)
    (env : Env) : St × Bool :=
  match xml_load_network_config network_name st with
  | none => (st, false)
  | some network =>
    let network1 := { network with physical_interface := strTake 63 physical_interface }
    let _cmd := "set interface " ++ physical_interface ++ " bridge " ++ network.bridge_name
    xml_save_network_config network1 st env

/-! ### Read-only formatting (vm_manager.c / network_manager.c show and list) -/

def vmStateStr : VmStateT → String
  | .running => "running"
  | .paused => "paused"
  | .error => "error"
  | .stopped => "stopped"

/-- vm_show (source lines 387-409); the captured stdout text. -/
def vm_show (vm_name : String) (st : St) : Option String :=
  (xml_load_vm_config vm_name st).map (fun vm =>
    "VM: " ++ vm.name ++ "\n  CPU: " ++ toString vm.cpu_cores ++ " cores\n  Memory: " ++
      toString vm.memory_mb ++ " MB\n  Boot Device: " ++ vm.boot_device ++
      "\n  State: " ++ vmStateStr vm.state ++ "\n")

/-- network_show (source lines 193-208). -/
def network_show (network_name : String) (st : St) : Option String :=
  (xml_load_network_config network_name st).map (fun n =>
    "Network: " ++ n.name ++ "\n  Type: bridge\n  FIB ID: " ++ toString n.fib_id ++
      "\n  Bridge: " ++ n.bridge_name ++ "\n  Physical Interface: " ++
      (if n.physical_interface.isEmpty then "none" else n.physical_interface) ++ "\n")

/-- printf %-Ns left-justified padding to a minimum width. -/
def padRight (s : String) (n : Nat) : String := s ++ ⟨List.replicate (n - s.length) ' '⟩

/-- readdir over a base directory: the dataset names directly below it
    (enumeration order modelled as dataset creation order). -/
def childNames (base : String) (st : St) : List String :=
  st.datasets.filterMap (fun d =>
    if (base ++ "/").isPrefixOf d then
      let rest : String := ⟨d.data.drop (base.length + 1)⟩
      if rest.data.contains '/' then none
      else if rest.data.isEmpty then none
      else some rest
    else none)

/-- vm_list (source lines 351-380). -/
def vm_list (st : St) : Option String :=
  if VM_BASE_PATH ∈ st.datasets then
    some ((childNames VM_BASE_PATH st).foldl (fun acc nm =>
      match xml_load_vm_config nm st with
      | none => acc
      | some vm =>
        acc ++ padRight vm.name 18 ++ " " ++ padRight (toString vm.cpu_cores) 6 ++ " " ++
          padRight (toString vm.memory_mb) 9 ++ " " ++ vmStateStr vm.state ++ "\n")
      "Name                CPU    Memory    State\n----                ---    ------    -----\n")
  else none

/-- network_list (source lines 161-186). -/
def network_list (st : St) : Option String :=
  if NETWORK_BASE_PATH ∈ st.datasets then
    some ((childNames NETWORK_BASE_PATH st).foldl (fun acc nm =>
      match xml_load_network_config nm st with
      | none => acc
      | some n =>
        acc ++ padRight n.name 18 ++ " " ++ padRight "bridge" 8 ++ " " ++
          padRight (toString n.fib_id) 6 ++ " " ++ padRight n.bridge_name 18 ++ " " ++
          (if n.physical_interface.isEmpty then "-" else n.physical_interface) ++ "\n")
      "Name                Type     FIB    Bridge              Physical Interface\n----                ----     ---    ------              ------------------\n")
  else none

/-! ### Command protocol layer (commands.c)

execute_command duplicates the command line with strdup and reads the
verb with `strtok(cmd_copy, " \t\n")`, which overwrites the separator
after the verb with NUL; the handlers receive that same buffer.  A
handler that calls `strtok(cmd, ...)` again therefore re-tokenizes a C
string that now holds only the verb (plus any leading separators): the
restarted token runs to the end of the string, so every subsequent
`strtok(NULL, ...)` returns NULL (ISO C 7.24.5.8).  The model makes the
tokenizer state explicit: `strtok_next` pops the active session,
`strtok_restart` re-opens a session on a C string; each handler is
passed the truncated buffer content (whose tokenization is exactly the
verb) and the session its caller left behind.  A handler returns the new
state, the success flag and the response text; the response buffer is
8192 bytes and none of the responses in scope reaches it, so truncation
is not modelled. -/

/-- strtok session state: the tokens still ahead in the active session.
    `strtok(NULL, " \t\n")` pops the next one; after a token that ran to
    the end of the string the session is empty and every further call
    returns NULL. -/
def strtok_next : List String → Option String × List String
  | [] => (none, [])
  | t :: ts => (some t, ts)

/-- `strtok(s, " \t\n")`: restart tokenization on the C string `s`,
    opening a fresh session. -/
def strtok_restart (s : String) : Option String × List String :=
  strtok_next (tokenize s)

/-- handle_set_vm_command (source lines 128-190): restarts strtok on the
    truncated buffer, then reads name, property and value from the
    (exhausted) session before loading, bounds-checking and saving. -/
def handle_set_vm_command (cmdStr : String) (_sess : List String) (st : St) (env : Env) :
    St × Bool × String :=
  match strtok_restart cmdStr with
  | (none, _) => (st, false, "ERROR: Missing VM name\n")
  | (some _, s0) =>
    let r1 := strtok_next s0
    match strtok_next r1.2 with
    | (none, _) => (st, false, "ERROR: Missing VM name\n")
    | (some vm_name, s2) =>
      match strtok_next s2 with
      | (none, _) => (st, false, "ERROR: Missing property\n")
      | (some property, s3) =>
        match strtok_next s3 with
        | (none, _) => (st, false, "ERROR: Missing value\n")
        | (some value, _) =>
          match xml_load_vm_config vm_name st with
          | none => (st, false, "ERROR: VM '" ++ vm_name ++ "' not found\n")
          | some vm =>
            if property = "cpu" then
              let cpu := atoi value
              if cpu ≤ 0 ∨ 32 < cpu then
                (st, false, "ERROR: Invalid CPU count (1-32)\n")
              else
                let r := xml_save_vm_config { vm with cpu_cores := cpu } st env
                if r.2 = false then
                  (r.1, false, "ERROR: Failed to save VM configuration\n")
                else
                  (r.1, true,
                    "OK: Set " ++ property ++ "=" ++ value ++ " for VM " ++ vm_name ++ "\n")
            else if property = "memory" then
              let memory := strtoull10 value
              if memory < 64 ∨ 1048576 < memory then
                (st, false, "ERROR: Invalid memory size (64-1048576 MB)\n")
              else
                let r := xml_save_vm_config { vm with memory_mb := memory } st env
                if r.2 = false then
                  (r.1, false, "ERROR: Failed to save VM configuration\n")
                else
                  (r.1, true,
                    "OK: Set " ++ property ++ "=" ++ value ++ " for VM " ++ vm_name ++ "\n")
            else if property = "boot-device" then
              let r := xml_save_vm_config { vm with boot_device := strTake 63 value } st env
              if r.2 = false then
                (r.1, false, "ERROR: Failed to save VM configuration\n")
              else
                (r.1, true,
                  "OK: Set " ++ property ++ "=" ++ value ++ " for VM " ++ vm_name ++ "\n")
            else (st, false, "ERROR: Unknown property '" ++ property ++ "'\n")

/-- handle_set_network_command (source lines 199-249): same restart. -/
def handle_set_network_command (cmdStr : String) (_sess : List String) (st : St)
    (env : Env) : St × Bool × String :=
  match strtok_restart cmdStr with
  | (none, _) => (st, false, "ERROR: Missing network name\n")
  | (some _, s0) =>
    let r1 := strtok_next s0
    match strtok_next r1.2 with
    | (none, _) => (st, false, "ERROR: Missing network name\n")
    | (some network_name, s2) =>
      match strtok_next s2 with
      | (none, _) => (st, false, "ERROR: Missing property\n")
      | (some property, s3) =>
        match strtok_next s3 with
        | (none, _) => (st, false, "ERROR: Missing value\n")
        | (some value, _) =>
          if property = "fib" then
            let fib_id := intToUint32 (atoi value)
            if 255 < fib_id then (st, false, "ERROR: Invalid FIB ID (0-255)\n")
            else
              let r := network_set_fib network_name fib_id st env
              if r.2 = false then (r.1, false, "ERROR: Failed to set FIB ID\n")
              else
                (r.1, true,
                  "OK: Set " ++ property ++ "=" ++ value ++ " for network " ++
                    network_name ++ "\n")
          else if property = "physical-interface" then
            let r := network_set_physical_interface network_name value st env
            if r.2 = false then (r.1, false, "ERROR: Failed to set physical interface\n")
            else
              (r.1, true,
                "OK: Set " ++ property ++ "=" ++ value ++ " for network " ++
                  network_name ++ "\n")
          else (st, false, "ERROR: Unknown property '" ++ property ++ "'\n")

/-- handle_set_command (source lines 104-119): the one handler that does
    not restart — it continues the session execute_command opened. -/
def handle_set_command (cmdStr : String) (sess : List String) (st : St) (env : Env) :
    St × Bool × String :=
  match strtok_next sess with
  | (none, _) => (st, false, "ERROR: Missing object type (vm|network)\n")
  | (some token, s1) =>
    if token = "vm" then handle_set_vm_command cmdStr s1 st env
    else if token = "network" then handle_set_network_command cmdStr s1 st env
    else (st, false, "ERROR: Unknown object type '" ++ token ++ "'\n")

/-- handle_show_command (source lines 258-345): restarts strtok; stdout
    of the show routines is captured as the response body. -/
def handle_show_command (cmdStr : String) (_sess : List String) (st : St) (_env : Env) :
    St × Bool × String :=
  match strtok_restart cmdStr with
  | (none, _) => (st, false, "ERROR: Missing object type\n")
  | (some _, s0) =>
    match strtok_next s0 with
    | (none, _) => (st, false, "ERROR: Missing object type (vm|network)\n")
    | (some object, s1) =>
      if object = "vm" then
        match strtok_next s1 with
        | (none, _) => (st, false, "ERROR: Missing VM name\n")
        | (some vm_name, _) =>
          match vm_show vm_name st with
          | none => (st, false, "ERROR: Failed to show VM details\n")
          | some out => (st, true, out)
      else if object = "network" then
        match strtok_next s1 with
        | (none, _) => (st, false, "ERROR: Missing network name\n")
        | (some network_name, _) =>
          match network_show network_name st with
          | none => (st, false, "ERROR: Failed to show network details\n")
          | some out => (st, true, out)
      else (st, false, "ERROR: Unknown object type '" ++ object ++ "'\n")

/-- handle_create_command (source lines 354-425): restarts strtok; its
    main branches convert cpu, memory and fib with atoi/strtoull and pass
    them to the managers without any range validation. -/
def handle_create_command (cmdStr : String) (_sess : List String) (st : St) (env : Env) :
    St × Bool × String :=
  match strtok_restart cmdStr with
  | (none, _) => (st, false, "ERROR: Missing object type\n")
  | (some _, s0) =>
    match strtok_next s0 with
    | (none, _) => (st, false, "ERROR: Missing object type (vm|network)\n")
    | (some object, s1) =>
      if object = "vm" then
        match strtok_next s1 with
        | (none, _) => (st, false, "ERROR: Missing VM name\n")
        | (some vm_name, s2) =>
          match strtok_next s2 with
          | (none, _) => (st, false, "ERROR: Missing CPU count\n")
          | (some cpu_str, s3) =>
            match strtok_next s3 with
            | (none, _) => (st, false, "ERROR: Missing memory size\n")
            | (some memory_str, _) =>
              let r := vm_create vm_name (atoi cpu_str) (strtoull10 memory_str) st env
              if r.2 = false then (r.1, false, "ERROR: Failed to create VM\n")
              else (r.1, true, "OK: Created VM " ++ vm_name ++ "\n")
      else if object = "network" then
        match strtok_next s1 with
        | (none, _) => (st, false, "ERROR: Missing network name\n")
        | (some network_name, s2) =>
          match strtok_next s2 with
          | (none, _) => (st, false, "ERROR: Missing FIB ID\n")
          | (some fib_str, s3) =>
            let r := network_create network_name (intToUint32 (atoi fib_str))
              (strtok_next s3).1 st env
            if r.2 = false then (r.1, false, "ERROR: Failed to create network\n")
            else (r.1, true, "OK: Created network " ++ network_name ++ "\n")
      else (st, false, "ERROR: Unknown object type '" ++ object ++ "'\n")

/-- handle_destroy_command (source lines 434-473): restarts strtok. -/
def handle_destroy_command (cmdStr : String) (_sess : List String) (st : St) (env : Env) :
    St × Bool × String :=
  match strtok_restart cmdStr with
  | (none, _) => (st, false, "ERROR: Missing object type\n")
  | (some _, s0) =>
    match strtok_next s0 with
    | (none, _) => (st, false, "ERROR: Missing object type (vm|network)\n")
    | (some object, s1) =>
      match strtok_next s1 with
      | (none, _) => (st, false, "ERROR: Missing name\n")
      | (some name, _) =>
        if object = "vm" then
          let r := vm_destroy name st env
          if r.2 = false then (r.1, false, "ERROR: Failed to destroy VM\n")
          else (r.1, true, "OK: Destroyed VM " ++ name ++ "\n")
        else if object = "network" then
          let r := network_destroy name st env
          if r.2 = false then (r.1, false, "ERROR: Failed to destroy network\n")
          else (r.1, true, "OK: Destroyed network " ++ name ++ "\n")
        else (st, false, "ERROR: Unknown object type '" ++ object ++ "'\n")

/-- handle_start_command (source lines 482-504): restarts strtok. -/
def handle_start_command (cmdStr : String) (_sess : List String) (st : St) (env : Env) :
    St × Bool × String :=
  match strtok_restart cmdStr with
  | (none, _) => (st, false, "ERROR: Missing VM name\n")
  | (some _, s0) =>
    match strtok_next s0 with
    | (none, _) => (st, false, "ERROR: Missing VM name\n")
    | (some vm_name, _) =>
      let r := vm_start vm_name st env
      if r.2 = false then (r.1, false, "ERROR: Failed to start VM\n")
      else (r.1, true, "OK: Started VM " ++ vm_name ++ "\n")

/-- handle_stop_command (source lines 513-535): restarts strtok. -/
def handle_stop_command (cmdStr : String) (_sess : List String) (st : St) (env : Env) :
    St × Bool × String :=
  match strtok_restart cmdStr with
  | (none, _) => (st, false, "ERROR: Missing VM name\n")
  | (some _, s0) =>
    match strtok_next s0 with
    | (none, _) => (st, false, "ERROR: Missing VM name\n")
    | (some vm_name, _) =>
      let r := vm_stop vm_name st env
      if r.2 = false then (r.1, false, "ERROR: Failed to stop VM\n")
      else (r.1, true, "OK: Stopped VM " ++ vm_name ++ "\n")

/-- handle_list_command (source lines 544-595): restarts strtok. -/
def handle_list_command (cmdStr : String) (_sess : List String) (st : St) (_env : Env) :
    St × Bool × String :=
  match strtok_restart cmdStr with
  | (none, _) => (st, false, "ERROR: Missing object type\n")
  | (some _, s0) =>
    match strtok_next s0 with
    | (none, _) => (st, false, "ERROR: Missing object type (vm|network)\n")
    | (some object, _) =>
      if object = "vm" then
        match vm_list st with
        | none => (st, false, "ERROR: Failed to list " ++ object ++ "\n")
        | some out => (st, true, out)
      else if object = "network" then
        match network_list st with
        | none => (st, false, "ERROR: Failed to list " ++ object ++ "\n")
        | some out => (st, true, out)
      else (st, false, "ERROR: Unknown object type '" ++ object ++ "'\n")

/-- handle_help_command (source lines 603-632): static reference text. -/
def helpText : String :=
  "HVD Commands:\n" ++
  "  create vm <name> <cpu> <memory>     Create a new VM\n" ++
  "  create network <name> <fib> [if]    Create a new network\n" ++
  "  destroy vm <name>                   Destroy a VM\n" ++
  "  destroy network <name>              Destroy a network\n" ++
  "  start <vm_name>                     Start a VM\n" ++
  "  stop <vm_name>                      Stop a VM\n" ++
  "  set vm <name> <prop> <value>        Set VM property\n" ++
  "  set network <name> <prop> <value>   Set network property\n" ++
  "  show vm <name>                      Show VM details\n" ++
  "  show network <name>                 Show network details\n" ++
  "  list vm                             List all VMs\n" ++
  "  list network                        List all networks\n" ++
  "  help                                Show this help\n" ++
  "\n" ++
  "VM Properties:\n" ++
  "  cpu <1-32>                          Number of CPU cores\n" ++
  "  memory <64-1048576>                 Memory in MB\n" ++
  "  boot-device <name>                  Boot device name\n" ++
  "\n" ++
  "Network Properties:\n" ++
  "  fib <0-255>                         FIB ID\n" ++
  "  physical-interface <name>           Physical interface\n"

/-- execute_command (source lines 61-95): strdup the command, read the
    verb (this writes NUL right after it, so the C string a handler can
    re-tokenize is exactly the verb), dispatch on it; the continuation of
    the opened strtok session holds the remaining tokens. -/
def execute_command (cmd : String) (st : St) (env : Env) : St × Bool × String :=
  match tokenize cmd with
  | [] => (st, false, "ERROR: Empty command\n")
  | token :: rest =>
    if token = "set" then handle_set_command token rest st env
    else if token = "show" then handle_show_command token rest st env
    else if token = "create" then handle_create_command token rest st env
    else if token = "destroy" then handle_destroy_command token rest st env
    else if token = "start" then handle_start_command token rest st env
    else if token = "stop" then handle_stop_command token rest st env
    else if token = "list" then handle_list_command token rest st env
    else if token = "help" then (st, true, helpText)
    else (st, false, "ERROR: Unknown command '" ++ token ++ "'\n")

/-! ### Spec-side validator languages (for claim C7)

These definitions follow the specification's words, to be compared with
the validators embedded from the source above. -/

/-- Definition following the spec's words: the whole string is exactly
    four dot-separated decimal numerals, each with value in 0..255. -/
def spec_ipv4_exact (s : String) : Bool :=
  match scanDigits s.data with
  | some (a, '.' :: r1) =>
    match scanDigits r1 with
    | some (b, '.' :: r2) =>
      match scanDigits r2 with
      | some (c, '.' :: r3) =>
        match scanDigits r3 with
        | some (d, []) => decide (a ≤ 255 ∧ b ≤ 255 ∧ c ≤ 255 ∧ d ≤ 255)
        | _ => false
      | _ => false
    | _ => false
  | _ => false

/-- Definition following the spec's words: the string splits on a single
    slash into an address part and a decimal length in 0..128, the
    address part validated by the family check chosen by presence of a
    colon (at least two colons for IPv6, `spec_ipv4_exact` otherwise). -/
def spec_ip_prefix_exact (s : String) : Bool :=
  match splitAtSlash s.data with
  | none => false
  | some (addr, lenp) =>
    !(lenp.contains '/') && !(lenp.isEmpty) && lenp.all cIsDigit &&
      decide (digitsVal lenp ≤ 128) &&
      (if addr.contains ':' then decide (2 ≤ addr.count ':') else spec_ipv4_exact ⟨addr⟩)

/-! ### Scanner lemmas -/

lemma not_space_of_digit {c : Char} (h : cIsDigit c = true) : cIsSpace c = false := by
  have h' : '0' ≤ c ∧ c ≤ '9' := of_decide_eq_true h
  have hne : ∀ d : Char, ¬ ('0' ≤ d ∧ d ≤ '9') → c ≠ d := by
    intro d hd hcd
    exact hd (hcd ▸ h')
  simp only [cIsSpace, Bool.or_eq_false_iff, beq_eq_false_iff_ne]
  refine ⟨⟨⟨⟨⟨?_, ?_⟩, ?_⟩, ?_⟩, ?_⟩, ?_⟩ <;> exact hne _ (by decide)

lemma ne_sign_of_digit {c : Char} (h : cIsDigit c = true) : c ≠ '-' ∧ c ≠ '+' := by
  have h' : '0' ≤ c ∧ c ≤ '9' := of_decide_eq_true h
  constructor <;> (intro hc; rw [hc] at h'; exact absurd h' (by decide))

/-- When the input starts with a digit, the %d conversion is exactly the
    digit-run scan (coerced to Int). -/
lemma scanInt_of_scanDigits {l : List Char} {v : Nat} {r : List Char}
    (h : scanDigits l = some (v, r)) : scanInt l = some ((v : Int), r) := by
  obtain ⟨c, cs, rfl⟩ : ∃ c cs, l = c :: cs := by
    cases l with
    | nil => simp [scanDigits] at h
    | cons c cs => exact ⟨c, cs, rfl⟩
  have hc : cIsDigit c = true := by
    by_contra hc'
    have hc'' : cIsDigit c = false := by
      cases hcc : cIsDigit c with
      | false => rfl
      | true => exact absurd hcc hc'
    simp [scanDigits, List.takeWhile_cons, hc''] at h
  have hsign := ne_sign_of_digit hc
  have hdw : List.dropWhile cIsSpace (c :: cs) = c :: cs := by
    rw [List.dropWhile_cons, not_space_of_digit hc]
    simp
  unfold scanInt
  simp only [hdw]
  rw [if_neg hsign.1, if_neg hsign.2, h]
  rfl

/-- A nonempty all-digit list scans as its value with nothing left. -/
lemma scanDigits_all_digits {l : List Char} (h1 : l ≠ []) (h2 : ∀ c ∈ l, cIsDigit c = true) :
    scanDigits l = some (digitsVal l, []) := by
  unfold scanDigits
  rw [List.takeWhile_eq_self_iff.mpr h2, List.dropWhile_eq_nil_iff.mpr fun c hc => by
    simp [h2 c hc]]
  simp [List.isEmpty_iff, h1]

/-- Soundness half of the IPv4 clause: an exact four-octet string is
    accepted by the embedded validator. -/
lemma spec_ipv4_sound (s : String) (h : spec_ipv4_exact s = true) :
    yang_validate_ipv4_address s = true := by
  unfold spec_ipv4_exact at h
  unfold yang_validate_ipv4_address ipv4Scan
  split at h <;> [skip; exact absurd h (by simp)]
  rename_i a r1 heq1
  split at h <;> [skip; exact absurd h (by simp)]
  rename_i b r2 heq2
  split at h <;> [skip; exact absurd h (by simp)]
  rename_i c r3 heq3
  split at h <;> [skip; exact absurd h (by simp)]
  rename_i d heq4
  simp only [scanInt_of_scanDigits heq1, scanInt_of_scanDigits heq2,
    scanInt_of_scanDigits heq3, scanInt_of_scanDigits heq4]
  have hb := of_decide_eq_true h
  simp only [decide_eq_true_eq]
  refine ⟨by positivity, ?_, by positivity, ?_, by positivity, ?_, by positivity, ?_⟩ <;>
    · rw [show ((255 : Int)) = ((255 : Nat) : Int) from rfl, Int.ofNat_le]
      omega

/-- Claim C7 as stated is false: `sscanf` ignores trailing input, so the
    IPv4 validator accepts "1.2.3.4.5" although that string is not four
    dot-separated integers. -/
theorem c7_counterexample_ipv4_trailing :
    ¬ (yang_validate_ipv4_address "1.2.3.4.5" = true ↔ spec_ipv4_exact "1.2.3.4.5" = true) := by
  decide

/-- Claim C7, amended: the IPv6 validator accepts exactly the strings with
    at least two colons.  Every string that is exactly four dot-separated
    decimal numerals in 0..255 is accepted by the IPv4 validator (and
    more: sscanf tolerates trailing input, see the counterexample).  The
    prefix validator splits at the first slash and rejects outright when
    the address part has 64 or more characters (its fixed 64-byte parse
    buffer); below that cap it accepts every single-slash split whose
    address part passes the colon-chosen family check and whose remainder
    is a decimal numeral of value at most 128. -/
theorem c7_amended_validators :
    (∀ s : String, yang_validate_ipv6_address s = true ↔ 2 ≤ s.data.count ':') ∧
    (∀ s : String, spec_ipv4_exact s = true → yang_validate_ipv4_address s = true) ∧
    (∀ (s : String) (addr lenp : List Char), splitAtSlash s.data = some (addr, lenp) →
      64 ≤ addr.length → yang_validate_ip_prefix s = false) ∧
    (∀ (s : String) (addr lenp : List Char), splitAtSlash s.data = some (addr, lenp) →
      addr.length < 64 → spec_ip_prefix_exact s = true →
      yang_validate_ip_prefix s = true) := by
  refine ⟨fun s => by simp [yang_validate_ipv6_address], spec_ipv4_sound, ?_, ?_⟩
  · intro s addr lenp hsplit hlen
    unfold yang_validate_ip_prefix
    simp only [hsplit]
    rw [if_pos hlen]
  · intro s addr lenp hsplit hlen h
    unfold spec_ip_prefix_exact at h
    rw [hsplit] at h
    simp only [Bool.and_eq_true, Bool.not_eq_true', decide_eq_true_eq] at h
    obtain ⟨⟨⟨⟨hslash, hne⟩, hdig⟩, hval⟩, hfam⟩ := h
    have hne' : lenp ≠ [] := by
      intro hl
      rw [hl] at hne
      simp at hne
    have hdig' : ∀ c ∈ lenp, cIsDigit c = true := by
      intro c hc
      exact List.all_eq_true.mp hdig c hc
    unfold yang_validate_ip_prefix
    simp only [hsplit]
    rw [if_neg (show ¬ 64 ≤ addr.length by omega)]
    simp only [scanInt_of_scanDigits (scanDigits_all_digits hne' hdig')]
    rw [if_neg (show ¬ ((digitsVal lenp : Int) < 0 ∨ 128 < (digitsVal lenp : Int)) by
      omega)]
    by_cases hcolon : addr.contains ':' = true
    · rw [if_pos hcolon]
      rw [if_pos hcolon] at hfam
      unfold yang_validate_ipv6_address
      simpa using hfam
    · rw [if_neg hcolon]
      rw [if_neg hcolon] at hfam
      exact spec_ipv4_sound ⟨addr⟩ hfam

/-- Witness for the amended C7 theorem at concrete inputs; the third uses
    a 64-colon address part, inside the claimed IPv6-prefix language but
    over the parse-buffer cap. -/
theorem c7_amended_validators_witness :
    yang_validate_ipv6_address "fe80::1" = true ∧
    yang_validate_ipv4_address "192.168.1.10" = true ∧
    yang_validate_ip_prefix (⟨List.replicate 64 ':'⟩ ++ "/8") = false ∧
    yang_validate_ip_prefix "10.0.0.0/8" = true := by
  refine ⟨?_, ?_, ?_, ?_⟩
  · exact (c7_amended_validators.1 "fe80::1").mpr (by decide)
  · exact c7_amended_validators.2.1 "192.168.1.10" (by decide)
  · exact c7_amended_validators.2.2.1 (⟨List.replicate 64 ':'⟩ ++ "/8")
      (List.replicate 64 ':') "8".data (by decide) (by decide)
  · exact c7_amended_validators.2.2.2 "10.0.0.0/8" "10.0.0.0".data "8".data (by decide)
      (by decide) (by decide)

/-! ### Document generation bounds (claim C8) -/

lemma sumLens_nil : sumLens [] = 0 := rfl

lemma sumLens_cons (p : String) (ps : List String) :
    sumLens (p :: ps) = p.length + sumLens ps := by
  simp [sumLens]

lemma sumLens_append (xs ys : List String) :
    sumLens (xs ++ ys) = sumLens xs + sumLens ys := by
  simp [sumLens]

lemma foldl_append_length (ps : List String) (acc : String) :
    (ps.foldl (fun r s => r ++ s) acc).length = acc.length + sumLens ps := by
  induction ps generalizing acc with
  | nil => simp [sumLens]
  | cons p ps ih =>
    simp only [List.foldl_cons, ih, String.length_append, sumLens_cons]
    omega

/-- The length of a joined piece list is the sum of the piece lengths. -/
lemma join_length (ps : List String) : (String.join ps).length = sumLens ps := by
  simpa using foldl_append_length ps ""

lemma offsetsFrom_append (xs ys : List String) : ∀ o : Nat,
    offsetsFrom o (xs ++ ys) = offsetsFrom o xs ++ offsetsFrom (o + sumLens xs) ys := by
  induction xs with
  | nil => intro o; simp [offsetsFrom, sumLens]
  | cons x xs ih =>
    intro o
    have h1 : offsetsFrom o ((x :: xs) ++ ys) =
        (o + x.length) :: offsetsFrom (o + x.length) (xs ++ ys) := rfl
    rw [h1, ih, sumLens_cons, ← Nat.add_assoc]
    rfl

/-- All running offsets stay below the capacity iff the final one does
    (offsets are monotone, so the last append's offset is the largest). -/
lemma offsetsFrom_lt_iff (cap : Nat) (ps : List String) : ∀ o : Nat,
    (∀ x ∈ offsetsFrom o ps, x < cap) ↔ (ps = [] ∨ o + sumLens ps < cap) := by
  induction ps with
  | nil => intro o; simp [offsetsFrom]
  | cons p ps ih =>
    intro o
    simp only [offsetsFrom, List.mem_cons, sumLens_cons]
    constructor
    · intro hx
      right
      rcases (ih (o + p.length)).mp (fun x hx' => hx x (Or.inr hx')) with h | h
      · subst h
        have h1 := hx (o + p.length) (Or.inl rfl)
        simpa [sumLens_nil] using h1
      · omega
    · rintro (h | h)
      · cases h
      · intro x hx
        rcases hx with rfl | hx
        · omega
        · exact (ih (o + p.length)).mpr (Or.inr (by omega)) x hx

set_option maxHeartbeats 1000000 in
/-- Closed form of the interface loop of yang_generate_config_xml. -/
lemma genIfacesAux_eq (cap : Nat) (is : List YangInterfaceT) : ∀ o : Nat,
    genIfacesAux cap is o =
      if (∀ i ∈ is, sumLens (ifaceXmlPieces i) < 1024) ∧
          (∀ x ∈ offsetsFrom o (is.map ifaceXml), x < cap)
      then some (o + sumLens (is.map ifaceXml)) else none := by
  induction is with
  | nil =>
    intro o
    rw [if_pos ⟨fun i hi => absurd hi (List.not_mem_nil i),
      fun x hx => absurd hx (by simp [offsetsFrom])⟩]
    simp [genIfacesAux, sumLens]
  | cons i is ih =>
    intro o
    unfold genIfacesAux
    simp only [yang_generate_interface_xml]
    have hlen : (ifaceXml i).length = sumLens (ifaceXmlPieces i) := join_length _
    by_cases h1 : sumLens (ifaceXmlPieces i) < 1024
    · simp only [h1, decide_True, Bool.true_eq_false, if_false]
      by_cases h2 : cap ≤ o + (ifaceXml i).length
      · rw [if_pos h2, if_neg]
        rintro ⟨-, hx⟩
        have := hx (o + (ifaceXml i).length) (by simp [offsetsFrom])
        omega
      · rw [if_neg h2, ih]
        by_cases h3 : (∀ j ∈ is, sumLens (ifaceXmlPieces j) < 1024) ∧
            (∀ x ∈ offsetsFrom (o + (ifaceXml i).length) (is.map ifaceXml), x < cap)
        · rw [if_pos h3, if_pos]
          · simp only [List.map_cons, sumLens_cons, Option.some.injEq]
            omega
          · refine ⟨fun j hj => ?_, fun x hx => ?_⟩
            · rcases List.mem_cons.mp hj with rfl | hj'
              · exact h1
              · exact h3.1 j hj'
            · simp only [List.map_cons, offsetsFrom, List.mem_cons] at hx
              rcases hx with rfl | hx'
              · omega
              · exact h3.2 x hx'
        · have hcond : ¬ ((∀ j ∈ i :: is, sumLens (ifaceXmlPieces j) < 1024) ∧
              (∀ x ∈ offsetsFrom o ((i :: is).map ifaceXml), x < cap)) := by
            rintro ⟨hA, hB⟩
            refine h3 ⟨fun j hj => hA j (List.mem_cons_of_mem _ hj), fun x hx => ?_⟩
            exact hB x
              (by simp only [List.map_cons, offsetsFrom, List.mem_cons]; exact Or.inr hx)
          rw [if_neg h3, if_neg hcond]
    · simp only [h1, decide_False, if_true]
      have hcond : ¬ ((∀ j ∈ i :: is, sumLens (ifaceXmlPieces j) < 1024) ∧
          (∀ x ∈ offsetsFrom o ((i :: is).map ifaceXml), x < cap)) := by
        rintro ⟨hA, -⟩
        exact h1 (hA i (List.mem_cons_self _ _))
      rw [if_neg hcond]

set_option maxHeartbeats 1000000 in
/-- Closed form of the route loop of yang_generate_config_xml. -/
lemma genRoutesAux_eq (cap : Nat) (rs : List YangRouteT) : ∀ o : Nat,
    genRoutesAux cap rs o =
      if (∀ r ∈ rs, (routeXml r).length < 512) ∧
          (∀ x ∈ offsetsFrom o (rs.map routeXml), x < cap)
      then some (o + sumLens (rs.map routeXml)) else none := by
  induction rs with
  | nil =>
    intro o
    rw [if_pos ⟨fun r hr => absurd hr (List.not_mem_nil r),
      fun x hx => absurd hx (by simp [offsetsFrom])⟩]
    simp [genRoutesAux, sumLens]
  | cons r rs ih =>
    intro o
    unfold genRoutesAux
    simp only [yang_generate_route_xml]
    by_cases h1 : (routeXml r).length < 512
    · simp only [h1, decide_True, Bool.true_eq_false, if_false]
      by_cases h2 : cap ≤ o + (routeXml r).length
      · rw [if_pos h2, if_neg]
        rintro ⟨-, hx⟩
        have := hx (o + (routeXml r).length) (by simp [offsetsFrom])
        omega
      · rw [if_neg h2, ih]
        by_cases h3 : (∀ j ∈ rs, (routeXml j).length < 512) ∧
            (∀ x ∈ offsetsFrom (o + (routeXml r).length) (rs.map routeXml), x < cap)
        · rw [if_pos h3, if_pos]
          · simp only [List.map_cons, sumLens_cons, Option.some.injEq]
            omega
          · refine ⟨fun j hj => ?_, fun x hx => ?_⟩
            · rcases List.mem_cons.mp hj with rfl | hj'
              · exact h1
              · exact h3.1 j hj'
            · simp only [List.map_cons, offsetsFrom, List.mem_cons] at hx
              rcases hx with rfl | hx'
              · omega
              · exact h3.2 x hx'
        · have hcond : ¬ ((∀ j ∈ r :: rs, (routeXml j).length < 512) ∧
              (∀ x ∈ offsetsFrom o ((r :: rs).map routeXml), x < cap)) := by
            rintro ⟨hA, hB⟩
            refine h3 ⟨fun j hj => hA j (List.mem_cons_of_mem _ hj), fun x hx => ?_⟩
            exact hB x
              (by simp only [List.map_cons, offsetsFrom, List.mem_cons]; exact Or.inr hx)
          rw [if_neg h3, if_neg hcond]
    · simp only [h1, decide_False, if_true]
      have hcond : ¬ ((∀ j ∈ r :: rs, (routeXml j).length < 512) ∧
          (∀ x ∈ offsetsFrom o ((r :: rs).map routeXml), x < cap)) := by
        rintro ⟨hA, -⟩
        exact h1 (hA r (List.mem_cons_self _ _))
      rw [if_neg hcond]

/-- Claim C8: a generator never reports success on an exhausted render
    buffer.  For the interface generator, success is equivalent to every
    append's running offset lying strictly below the buffer size; for the
    whole-document generator, success is equivalent to every interface and
    route fitting its local buffer and every append on the main buffer
    staying in bounds.  In particular exhaustion at any intermediate
    append forces failure, and success implies every append fit. -/
theorem c8_generation_checks :
    (∀ (i : YangInterfaceT) (cap : Nat),
      (yang_generate_interface_xml i cap).2 = true ↔
        ∀ x ∈ offsetsFrom 0 (ifaceXmlPieces i), x < cap) ∧
    (∀ (cfg : YangNetdConfigT) (cap : Nat),
      (yang_generate_config_xml cfg cap).2 = true ↔
        ((∀ i ∈ cfg.interfaces, (yang_generate_interface_xml i 1024).2 = true) ∧
          (∀ r ∈ cfg.routes, (yang_generate_route_xml r 512).2 = true) ∧
          ∀ x ∈ offsetsFrom 0 (configPieces cfg), x < cap)) := by
  constructor
  · intro i cap
    rw [yang_generate_interface_xml, decide_eq_true_eq,
      offsetsFrom_lt_iff cap (ifaceXmlPieces i) 0]
    simp [ifaceXmlPieces]
  · intro cfg cap
    have hmem : ∀ x : Nat, x ∈ offsetsFrom 0 (configPieces cfg) ↔
        (x = configHeader.length ∨
          x ∈ offsetsFrom configHeader.length (cfg.interfaces.map ifaceXml) ∨
          x ∈ offsetsFrom (configHeader.length + sumLens (cfg.interfaces.map ifaceXml))
            (cfg.routes.map routeXml) ∨
          x = configHeader.length + sumLens (cfg.interfaces.map ifaceXml) +
            sumLens (cfg.routes.map routeXml) + configFooter.length) := by
      intro x
      show x ∈ (0 + configHeader.length) ::
          offsetsFrom (0 + configHeader.length)
            (cfg.interfaces.map ifaceXml ++ cfg.routes.map routeXml ++ [configFooter]) ↔ _
      rw [Nat.zero_add, offsetsFrom_append, offsetsFrom_append, sumLens_append]
      simp only [List.mem_cons, List.mem_append, offsetsFrom, List.mem_singleton,
        List.not_mem_nil, or_false, Nat.add_assoc]
      tauto
    simp only [yang_generate_config_xml, yang_generate_interface_xml,
      yang_generate_route_xml, decide_eq_true_eq]
    by_cases h0 : cap ≤ configHeader.length
    · rw [if_pos h0]
      constructor
      · intro h
        exact absurd h (by simp)
      · rintro ⟨-, -, hx⟩
        have := hx configHeader.length ((hmem _).mpr (Or.inl rfl))
        omega
    · rw [if_neg h0]
      split
      next heqI =>
        rw [genIfacesAux_eq] at heqI
        split at heqI
        next => exact absurd heqI (by simp)
        next hI =>
          constructor
          · intro h
            exact absurd h (by simp)
          · rintro ⟨hi, -, hx⟩
            exact absurd
              ⟨hi, fun x hx' => hx x ((hmem x).mpr (Or.inr (Or.inl hx')))⟩ hI
      next o1 heqI =>
        rw [genIfacesAux_eq] at heqI
        split at heqI
        next hI =>
          injection heqI with ho1
          subst ho1
          split
          next heqR =>
            rw [genRoutesAux_eq] at heqR
            split at heqR
            next => exact absurd heqR (by simp)
            next hR =>
              constructor
              · intro h
                exact absurd h (by simp)
              · rintro ⟨-, hr, hx⟩
                exact absurd
                  ⟨hr, fun x hx' => hx x ((hmem x).mpr (Or.inr (Or.inr (Or.inl hx'))))⟩ hR
          next o2 heqR =>
            rw [genRoutesAux_eq] at heqR
            split at heqR
            next hR =>
              injection heqR with ho2
              subst ho2
              rw [decide_eq_true_eq]
              constructor
              · intro hfin
                refine ⟨hI.1, hR.1, fun x hx => ?_⟩
                rcases (hmem x).mp hx with rfl | hx' | hx' | rfl
                · omega
                · exact hI.2 x hx'
                · exact hR.2 x hx'
                · omega
              · rintro ⟨-, -, hx⟩
                have := hx _ ((hmem _).mpr (Or.inr (Or.inr (Or.inr rfl))))
                omega
            next => exact absurd heqR (by simp)
        next => exact absurd heqI (by simp)

/-- Witness for C8 at a concrete document and buffer size. -/
theorem c8_generation_checks_witness :
    (yang_generate_config_xml
      { interfaces := [{ name := "bridge_n1", enabled := true, fib := 5, addresses := [] }],
        routes := [] } 8192).2 = true := by
  refine (c8_generation_checks.2 _ 8192).mpr ?_
  decide

/-! ### Tokenizer lemmas -/

lemma tokenizeAux_noSep (l : List Char) (h : ∀ c ∈ l, isSep c = false) : ∀ cur : List Char,
    tokenizeAux l cur =
      if (cur.reverse ++ l).isEmpty then [] else [⟨cur.reverse ++ l⟩] := by
  induction l with
  | nil => intro cur; simp [tokenizeAux]
  | cons c cs ih =>
    intro cur
    have hc : isSep c = false := h c (List.mem_cons_self c cs)
    have hl : ((c :: cur).reverse ++ cs) = cur.reverse ++ (c :: cs) := by
      simp
    show (if isSep c = true then _ else tokenizeAux cs (c :: cur)) = _
    rw [hc, if_neg (by simp), ih (fun d hd => h d (List.mem_cons_of_mem c hd)) (c :: cur), hl]

/-- A separator-free nonempty string tokenizes to itself. -/
lemma tokenizeAux_clean (s : String) (h : tokenClean s) : tokenizeAux s.data [] = [s] := by
  rw [tokenizeAux_noSep s.data h.2 []]
  have hne : (List.reverse [] ++ s.data).isEmpty = false := by
    simp [List.isEmpty_iff, h.1]
  rw [hne]
  simp

/-- Consuming one separator-free token followed by a space. -/
lemma tokenizeAux_token_sep (l rest : List Char) : ∀ cur : List Char,
    (∀ c ∈ l, isSep c = false) → cur.reverse ++ l ≠ [] →
    tokenizeAux (l ++ ' ' :: rest) cur = ⟨cur.reverse ++ l⟩ :: tokenizeAux rest [] := by
  induction l with
  | nil =>
    intro cur _ hne
    show tokenizeAux (' ' :: rest) cur = _
    have hcur : cur.isEmpty = false := by
      cases cur with
      | nil => simp at hne
      | cons a as => rfl
    show (if isSep ' ' = true then
        (if cur.isEmpty = true then tokenizeAux rest [] else ⟨cur.reverse⟩ :: tokenizeAux rest [])
      else tokenizeAux rest (' ' :: cur)) = _
    rw [if_pos (show isSep ' ' = true from rfl), if_neg (show ¬ cur.isEmpty = true by simp [hcur])]
    simp
  | cons c cs ih =>
    intro cur hsep hne
    have hc : isSep c = false := hsep c (List.mem_cons_self c cs)
    show (if isSep c = true then _ else tokenizeAux (cs ++ ' ' :: rest) (c :: cur)) = _
    rw [hc, if_neg (by simp),
      ih (c :: cur) (fun d hd => hsep d (List.mem_cons_of_mem c hd)) (by simp)]
    congr 2
    simp

/-- Same, starting a fresh token. -/
lemma tokenizeAux_token_sep_nil (l rest : List Char) (hsep : ∀ c ∈ l, isSep c = false)
    (hne : l ≠ []) :
    tokenizeAux (l ++ ' ' :: rest) [] = ⟨l⟩ :: tokenizeAux rest [] := by
  simpa using tokenizeAux_token_sep l rest [] hsep (by simpa using hne)

lemma tokenize_destroy_vm (name : String) (h : tokenClean name) :
    tokenize ("destroy vm " ++ name) = ["destroy", "vm", name] := by
  show tokenizeAux ("destroy vm " ++ name).data [] = _
  rw [String.data_append]
  rw [show tokenizeAux ("destroy vm ".data ++ name.data) [] =
    "destroy" :: "vm" :: tokenizeAux name.data [] from rfl]
  rw [tokenizeAux_clean name h]

lemma tokenize_set_vm_cpu (n v : String) (hn : tokenClean n) (hv : tokenClean v) :
    tokenize ("set vm " ++ n ++ " cpu " ++ v) = ["set", "vm", n, "cpu", v] := by
  have hd : ("set vm " ++ n ++ " cpu " ++ v).data =
      "set vm ".data ++ (n.data ++ (' ' :: ("cpu ".data ++ v.data))) := by
    simp only [String.data_append, List.append_assoc]
    rfl
  show tokenizeAux ("set vm " ++ n ++ " cpu " ++ v).data [] = _
  rw [hd]
  rw [show tokenizeAux ("set vm ".data ++ (n.data ++ (' ' :: ("cpu ".data ++ v.data)))) [] =
    "set" :: "vm" :: tokenizeAux (n.data ++ (' ' :: ("cpu ".data ++ v.data))) [] from rfl]
  rw [tokenizeAux_token_sep_nil n.data _ hn.2 hn.1]
  rw [show tokenizeAux ("cpu ".data ++ v.data) [] = "cpu" :: tokenizeAux v.data [] from rfl]
  rw [tokenizeAux_clean v hv]

lemma tokenize_set_vm_memory (n v : String) (hn : tokenClean n) (hv : tokenClean v) :
    tokenize ("set vm " ++ n ++ " memory " ++ v) = ["set", "vm", n, "memory", v] := by
  have hd : ("set vm " ++ n ++ " memory " ++ v).data =
      "set vm ".data ++ (n.data ++ (' ' :: ("memory ".data ++ v.data))) := by
    simp only [String.data_append, List.append_assoc]
    rfl
  show tokenizeAux ("set vm " ++ n ++ " memory " ++ v).data [] = _
  rw [hd]
  rw [show tokenizeAux
      ("set vm ".data ++ (n.data ++ (' ' :: ("memory ".data ++ v.data)))) [] =
    "set" :: "vm" :: tokenizeAux (n.data ++ (' ' :: ("memory ".data ++ v.data))) [] from rfl]
  rw [tokenizeAux_token_sep_nil n.data _ hn.2 hn.1]
  rw [show tokenizeAux ("memory ".data ++ v.data) [] =
    "memory" :: tokenizeAux v.data [] from rfl]
  rw [tokenizeAux_clean v hv]

lemma tokenize_set_network_fib (n v : String) (hn : tokenClean n) (hv : tokenClean v) :
    tokenize ("set network " ++ n ++ " fib " ++ v) = ["set", "network", n, "fib", v] := by
  have hd : ("set network " ++ n ++ " fib " ++ v).data =
      "set network ".data ++ (n.data ++ (' ' :: ("fib ".data ++ v.data))) := by
    simp only [String.data_append, List.append_assoc]
    rfl
  show tokenizeAux ("set network " ++ n ++ " fib " ++ v).data [] = _
  rw [hd]
  rw [show tokenizeAux
      ("set network ".data ++ (n.data ++ (' ' :: ("fib ".data ++ v.data)))) [] =
    "set" :: "network" :: tokenizeAux (n.data ++ (' ' :: ("fib ".data ++ v.data))) [] from rfl]
  rw [tokenizeAux_token_sep_nil n.data _ hn.2 hn.1]
  rw [show tokenizeAux ("fib ".data ++ v.data) [] = "fib" :: tokenizeAux v.data [] from rfl]
  rw [tokenizeAux_clean v hv]

lemma tokenize_create_vm (n c m : String) (hn : tokenClean n) (hc : tokenClean c)
    (hm : tokenClean m) :
    tokenize ("create vm " ++ n ++ " " ++ c ++ " " ++ m) = ["create", "vm", n, c, m] := by
  have hd : ("create vm " ++ n ++ " " ++ c ++ " " ++ m).data =
      "create vm ".data ++ (n.data ++ (' ' :: (c.data ++ (' ' :: m.data)))) := by
    simp only [String.data_append, List.append_assoc]
    rfl
  show tokenizeAux ("create vm " ++ n ++ " " ++ c ++ " " ++ m).data [] = _
  rw [hd]
  rw [show tokenizeAux
      ("create vm ".data ++ (n.data ++ (' ' :: (c.data ++ (' ' :: m.data))))) [] =
    "create" :: "vm" :: tokenizeAux (n.data ++ (' ' :: (c.data ++ (' ' :: m.data)))) []
    from rfl]
  rw [tokenizeAux_token_sep_nil n.data _ hn.2 hn.1]
  rw [tokenizeAux_token_sep_nil c.data _ hc.2 hc.1]
  rw [tokenizeAux_clean m hm]

lemma tokenize_create_network (n f : String) (hn : tokenClean n) (hf : tokenClean f) :
    tokenize ("create network " ++ n ++ " " ++ f) = ["create", "network", n, f] := by
  have hd : ("create network " ++ n ++ " " ++ f).data =
      "create network ".data ++ (n.data ++ (' ' :: f.data)) := by
    simp only [String.data_append, List.append_assoc]
    rfl
  show tokenizeAux ("create network " ++ n ++ " " ++ f).data [] = _
  rw [hd]
  rw [show tokenizeAux ("create network ".data ++ (n.data ++ (' ' :: f.data))) [] =
    "create" :: "network" :: tokenizeAux (n.data ++ (' ' :: f.data)) [] from rfl]
  rw [tokenizeAux_token_sep_nil n.data _ hn.2 hn.1]
  rw [tokenizeAux_clean f hf]

/-! ### strtok session facts

Every token the tokenizer produces is nonempty and separator-free, so a
`strtok(cmd, ...)` restart on the NUL-truncated buffer (whose content
tokenizes to exactly the verb) yields the verb and an exhausted session:
each handler that restarts then fails its next argument read. -/

lemma tokenizeAux_tokens_clean (l : List Char) :
    ∀ cur : List Char, (∀ c ∈ cur, isSep c = false) →
      ∀ t ∈ tokenizeAux l cur, tokenClean t := by
  induction l with
  | nil =>
    intro cur hcur t ht
    simp only [tokenizeAux] at ht
    by_cases hc : cur.isEmpty
    · rw [if_pos hc] at ht
      exact absurd ht (List.not_mem_nil t)
    · rw [if_neg hc] at ht
      have hts : t = ⟨cur.reverse⟩ := List.mem_singleton.mp ht
      subst hts
      refine ⟨?_, ?_⟩
      · show cur.reverse ≠ []
        simp only [ne_eq, List.reverse_eq_nil_iff]
        intro hnil
        rw [hnil] at hc
        exact hc rfl
      · intro c hcm
        exact hcur c (List.mem_reverse.mp hcm)
  | cons c cs ih =>
    intro cur hcur t ht
    simp only [tokenizeAux] at ht
    by_cases hs : isSep c
    · rw [if_pos hs] at ht
      by_cases hc : cur.isEmpty
      · rw [if_pos hc] at ht
        exact ih [] (fun d hd => absurd hd (List.not_mem_nil d)) t ht
      · rw [if_neg hc] at ht
        rcases List.mem_cons.mp ht with h1 | h2
        · subst h1
          refine ⟨?_, ?_⟩
          · show cur.reverse ≠ []
            simp only [ne_eq, List.reverse_eq_nil_iff]
            intro hnil
            rw [hnil] at hc
            exact hc rfl
          · intro d hd
            exact hcur d (List.mem_reverse.mp hd)
        · exact ih [] (fun d hd => absurd hd (List.not_mem_nil d)) t h2
    · rw [if_neg hs] at ht
      refine ih (c :: cur) ?_ t ht
      intro d hd
      rcases List.mem_cons.mp hd with h1 | h2
      · subst h1
        simpa using hs
      · exact hcur d h2

/-- Every token of a command line is clean. -/
lemma tokenize_tokens_clean (cmd : String) : ∀ t ∈ tokenize cmd, tokenClean t :=
  tokenizeAux_tokens_clean cmd.data [] (fun d hd => absurd hd (List.not_mem_nil d))

/-- Restarting strtok on a clean single-token string yields that token
    and an exhausted session (ISO C 7.24.5.8). -/
lemma strtok_restart_clean (t : String) (h : tokenClean t) :
    strtok_restart t = (some t, []) := by
  unfold strtok_restart tokenize
  rw [tokenizeAux_clean t h]
  rfl

lemma handle_set_vm_command_stuck (cmdStr : String) (sess : List String) (st : St)
    (env : Env) (h : tokenClean cmdStr) :
    handle_set_vm_command cmdStr sess st env =
      (st, false, "ERROR: Missing VM name\n") := by
  unfold handle_set_vm_command
  rw [strtok_restart_clean cmdStr h]
  rfl

lemma handle_set_network_command_stuck (cmdStr : String) (sess : List String) (st : St)
    (env : Env) (h : tokenClean cmdStr) :
    handle_set_network_command cmdStr sess st env =
      (st, false, "ERROR: Missing network name\n") := by
  unfold handle_set_network_command
  rw [strtok_restart_clean cmdStr h]
  rfl

lemma handle_show_command_stuck (cmdStr : String) (sess : List String) (st : St)
    (env : Env) (h : tokenClean cmdStr) :
    handle_show_command cmdStr sess st env =
      (st, false, "ERROR: Missing object type (vm|network)\n") := by
  unfold handle_show_command
  rw [strtok_restart_clean cmdStr h]
  rfl

lemma handle_create_command_stuck (cmdStr : String) (sess : List String) (st : St)
    (env : Env) (h : tokenClean cmdStr) :
    handle_create_command cmdStr sess st env =
      (st, false, "ERROR: Missing object type (vm|network)\n") := by
  unfold handle_create_command
  rw [strtok_restart_clean cmdStr h]
  rfl

lemma handle_destroy_command_stuck (cmdStr : String) (sess : List String) (st : St)
    (env : Env) (h : tokenClean cmdStr) :
    handle_destroy_command cmdStr sess st env =
      (st, false, "ERROR: Missing object type (vm|network)\n") := by
  unfold handle_destroy_command
  rw [strtok_restart_clean cmdStr h]
  rfl

lemma handle_start_command_stuck (cmdStr : String) (sess : List String) (st : St)
    (env : Env) (h : tokenClean cmdStr) :
    handle_start_command cmdStr sess st env =
      (st, false, "ERROR: Missing VM name\n") := by
  unfold handle_start_command
  rw [strtok_restart_clean cmdStr h]
  rfl

lemma handle_stop_command_stuck (cmdStr : String) (sess : List String) (st : St)
    (env : Env) (h : tokenClean cmdStr) :
    handle_stop_command cmdStr sess st env =
      (st, false, "ERROR: Missing VM name\n") := by
  unfold handle_stop_command
  rw [strtok_restart_clean cmdStr h]
  rfl

lemma handle_list_command_stuck (cmdStr : String) (sess : List String) (st : St)
    (env : Env) (h : tokenClean cmdStr) :
    handle_list_command cmdStr sess st env =
      (st, false, "ERROR: Missing object type (vm|network)\n") := by
  unfold handle_list_command
  rw [strtok_restart_clean cmdStr h]
  rfl

/-- The command layer never changes the state: every dispatch path either
    fails an argument read (the restarting handlers), answers from a
    read-only routine, or errors. -/
lemma execute_command_inert (cmd : String) (st : St) (env : Env) :
    (execute_command cmd st env).1 = st := by
  unfold execute_command
  cases htok : tokenize cmd with
  | nil => rfl
  | cons verb rest =>
    have hclean : tokenClean verb :=
      tokenize_tokens_clean cmd verb (by rw [htok]; exact List.mem_cons_self verb rest)
    show (if verb = "set" then handle_set_command verb rest st env
      else if verb = "show" then handle_show_command verb rest st env
      else if verb = "create" then handle_create_command verb rest st env
      else if verb = "destroy" then handle_destroy_command verb rest st env
      else if verb = "start" then handle_start_command verb rest st env
      else if verb = "stop" then handle_stop_command verb rest st env
      else if verb = "list" then handle_list_command verb rest st env
      else if verb = "help" then (st, true, helpText)
      else (st, false, "ERROR: Unknown command '" ++ verb ++ "'\n")).1 = st
    split
    · unfold handle_set_command
      cases rest with
      | nil => rfl
      | cons t2 ts =>
        show (if t2 = "vm" then handle_set_vm_command verb ts st env
          else if t2 = "network" then handle_set_network_command verb ts st env
          else (st, false, "ERROR: Unknown object type '" ++ t2 ++ "'\n")).1 = st
        split
        · rw [handle_set_vm_command_stuck verb ts st env hclean]
        · split
          · rw [handle_set_network_command_stuck verb ts st env hclean]
          · rfl
    · split
      · rw [handle_show_command_stuck verb rest st env hclean]
      · split
        · rw [handle_create_command_stuck verb rest st env hclean]
        · split
          · rw [handle_destroy_command_stuck verb rest st env hclean]
          · split
            · rw [handle_start_command_stuck verb rest st env hclean]
            · split
              · rw [handle_stop_command_stuck verb rest st env hclean]
              · split
                · rw [handle_list_command_stuck verb rest st env hclean]
                · split
                  · rfl
                  · rfl

/-! ### Shared concrete fixtures -/

/-- Environment in which every external collaborator succeeds. -/
def envAll : Env :=
  { zfsOk := true, saveVmOk := true, saveNetOk := true, netdOk := true,
    vmmOpenOk := true, forkOk := true, suspendOk := true, killOk := true, nextPid := 4242 }

/-- Empty world. -/
def emptySt : St := { datasets := [], files := [], netdSent := [], spawned := [] }

/-- World containing exactly the VM "t" (4 cpus, 512 MB), freshly created. -/
def stVmT : St := (vm_create "t" 4 512 emptySt envAll).1

/-- The record vm_create persists for "t" 4 512. -/
def vrecT : VmConfigT :=
  { name := "t", cpu_cores := 4, memory_mb := 512, boot_device := "disk0",
    state := .stopped }

/-- World containing exactly the network "n1" (fib 5), freshly created. -/
def stNetT : St := (network_create "n1" 5 none emptySt envAll).1

/-- The record network_create persists for "n1" 5. -/
def nrecT : NetworkDefT :=
  { name := "n1", ntype := .bridge, fib_id := 5, physical_interface := "",
    bridge_name := "bridge_n1" }

/-! ### Small operation specifications -/

lemma strTake_of_le (n : String) (h : n.data.length ≤ 63) : strTake 63 n = n := by
  unfold strTake
  rw [List.take_of_length_le h]

lemma lookupFile_writeFile (files : List (String × HvFileT)) (k : String) (f : HvFileT) :
    lookupFile (writeFile files k f) k = some f := by
  simp [writeFile, lookupFile]

lemma zfs_create_dataset_spec (d t : String) (st : St) (env : Env) (hz : env.zfsOk = true) :
    (zfs_create_dataset d t st env).2 = true ∧
    (zfs_create_dataset d t st env).1.files = st.files ∧
    (zfs_create_dataset d t st env).1.netdSent = st.netdSent ∧
    (zfs_create_dataset d t st env).1.spawned = st.spawned ∧
    ∀ d', d' ∈ (zfs_create_dataset d t st env).1.datasets ↔ (d' = d ∨ d' ∈ st.datasets) := by
  unfold zfs_create_dataset
  rw [if_neg (by simp [hz])]
  by_cases hmem : d ∈ st.datasets
  · rw [if_pos hmem]
    refine ⟨rfl, rfl, rfl, rfl, fun d' => ?_⟩
    constructor
    · exact Or.inr
    · rintro (rfl | h)
      exacts [hmem, h]
  · rw [if_neg hmem]
    refine ⟨rfl, rfl, rfl, rfl, fun d' => ?_⟩
    simp [or_comm]

lemma zfs_create_vm_structure_spec (name : String) (st : St) (env : Env)
    (hz : env.zfsOk = true) :
    (zfs_create_vm_structure name st env).2 = true ∧
    (zfs_create_vm_structure name st env).1.files = st.files ∧
    (zfs_create_vm_structure name st env).1.netdSent = st.netdSent ∧
    (zfs_create_vm_structure name st env).1.spawned = st.spawned ∧
    vmDatasetPath name ∈ (zfs_create_vm_structure name st env).1.datasets ∧
    vmStatePath name ∈ (zfs_create_vm_structure name st env).1.datasets := by
  obtain ⟨ha1, hf1, hn1, hs1, hm1⟩ :=
    zfs_create_dataset_spec (vmDatasetPath name) "filesystem" st env hz
  obtain ⟨ha2, hf2, hn2, hs2, hm2⟩ :=
    zfs_create_dataset_spec (vmDisksPath name) "filesystem"
      (zfs_create_dataset (vmDatasetPath name) "filesystem" st env).1 env hz
  obtain ⟨ha3, hf3, hn3, hs3, hm3⟩ :=
    zfs_create_dataset_spec (vmStatePath name) "filesystem"
      (zfs_create_dataset (vmDisksPath name) "filesystem"
        (zfs_create_dataset (vmDatasetPath name) "filesystem" st env).1 env).1 env hz
  unfold zfs_create_vm_structure
  rw [if_neg (by simp [ha1]), if_neg (by simp [ha2]), if_neg (by simp [ha3])]
  refine ⟨rfl, ?_, ?_, ?_, ?_, ?_⟩
  · rw [hf3, hf2, hf1]
  · rw [hn3, hn2, hn1]
  · rw [hs3, hs2, hs1]
  · exact (hm3 _).mpr (Or.inr ((hm2 _).mpr (Or.inr ((hm1 _).mpr (Or.inl rfl)))))
  · exact (hm3 _).mpr (Or.inl rfl)

lemma zfs_create_network_structure_spec (name : String) (st : St) (env : Env)
    (hz : env.zfsOk = true) :
    (zfs_create_network_structure name st env).2 = true ∧
    (zfs_create_network_structure name st env).1.files = st.files ∧
    (zfs_create_network_structure name st env).1.netdSent = st.netdSent ∧
    (zfs_create_network_structure name st env).1.spawned = st.spawned ∧
    netDatasetPath name ∈ (zfs_create_network_structure name st env).1.datasets := by
  obtain ⟨ha1, hf1, hn1, hs1, hm1⟩ :=
    zfs_create_dataset_spec (netDatasetPath name) "filesystem" st env hz
  unfold zfs_create_network_structure
  rw [if_neg (by simp [ha1])]
  exact ⟨rfl, hf1, hn1, hs1, (hm1 _).mpr (Or.inl rfl)⟩

lemma xml_save_vm_config_ok (vm : VmConfigT) (st : St) (env : Env)
    (hsv : env.saveVmOk = true) (hds : vmDatasetPath vm.name ∈ st.datasets) :
    xml_save_vm_config vm st env =
      ({ st with files := writeFile st.files (vmConfigPath vm.name) (.vmCfg vm) }, true) := by
  unfold xml_save_vm_config
  rw [if_pos (And.intro hsv hds)]

lemma xml_save_network_config_ok (network : NetworkDefT) (st : St) (env : Env)
    (hsv : env.saveNetOk = true) (hds : netDatasetPath network.name ∈ st.datasets) :
    xml_save_network_config network st env =
      ({ st with
          files := writeFile st.files (netConfigPath network.name) (.netCfg network) },
        true) := by
  unfold xml_save_network_config
  rw [if_pos (And.intro hsv hds)]

/-- vm_create with working storage and persistence: succeeds and persists
    exactly the passed values. -/
lemma vm_create_ok_spec (name : String) (cpu : Int) (mem : Nat) (st : St) (env : Env)
    (hz : env.zfsOk = true) (hsv : env.saveVmOk = true) (hlen : name.data.length ≤ 63) :
    (vm_create name cpu mem st env).2 = true ∧
    xml_load_vm_config name (vm_create name cpu mem st env).1 =
      some { name := name, cpu_cores := cpu, memory_mb := mem,
             boot_device := "disk0", state := .stopped } := by
  obtain ⟨ha, hf, hn, hs, hmem1, hmem2⟩ := zfs_create_vm_structure_spec name st env hz
  simp only [vm_create]
  rw [if_neg (by simp [ha]), strTake_of_le name hlen]
  rw [xml_save_vm_config_ok _ _ _ hsv hmem1]
  refine ⟨rfl, ?_⟩
  simp [xml_load_vm_config, lookupFile_writeFile]

lemma netd_configure_bridge_files (b : String) (f : Nat) (st : St) (env : Env) :
    (netd_configure_bridge b f st env).1.files = st.files := by
  simp only [netd_configure_bridge, netd_send_yang_config]
  split <;> rfl

lemma netd_configure_bridge_datasets (b : String) (f : Nat) (st : St) (env : Env) :
    (netd_configure_bridge b f st env).1.datasets = st.datasets := by
  simp only [netd_configure_bridge, netd_send_yang_config]
  split <;> rfl

lemma xml_save_network_success (network : NetworkDefT) (st : St) (env : Env)
    (h : (xml_save_network_config network st env).2 = true) :
    (xml_save_network_config network st env).1 =
      { st with files := writeFile st.files (netConfigPath network.name) (.netCfg network) } := by
  unfold xml_save_network_config at h ⊢
  split at h
  next hc => rw [if_pos hc]
  next hc => exact absurd h (by simp)

/-- A successful network_create persists exactly the record built from its
    arguments: truncated name, bridge type, the raw fib, the (truncated)
    physical interface, and the derived (truncated) bridge name. -/
lemma network_create_success_load (name : String) (fib : Nat) (phys : Option String)
    (st : St) (env : Env) (hlen : name.data.length ≤ 63)
    (hok : (network_create name fib phys st env).2 = true) :
    xml_load_network_config name (network_create name fib phys st env).1 =
      some { name := name, ntype := .bridge, fib_id := fib,
             physical_interface := (match phys with | some p => strTake 63 p | none => ""),
             bridge_name := strTake 63 ("bridge_" ++ name) } := by
  cases phys <;>
    (simp only [network_create, strTake_of_le name hlen] at hok ⊢
     split at hok
     next h1 => exact absurd hok (by simp)
     next h1 =>
       split at hok
       next h2 => exact absurd hok (by simp)
       next h2 =>
         split at hok
         next h3 => exact absurd hok (by simp)
         next h3 =>
           rw [if_neg h1, if_neg h2, if_neg h3]
           have h2' := xml_save_network_success _ _ env (by simpa using h2)
           unfold xml_load_network_config
           rw [netd_configure_bridge_files, h2']
           simp [lookupFile_writeFile])

/-! ### Claim C9 -/

/-- Claim C9 as stated is false: `destroy vm ghost` (no record, no
    storage layout) is answered with "ERROR: Missing object type
    (vm|network)", not with success and "OK: Destroyed VM ghost" — the
    destroy handler restarts strtok on the NUL-truncated buffer, so all
    its argument reads fail. -/
theorem c9_counterexample_destroy_vm_errors :
    execute_command "destroy vm ghost" emptySt envAll =
      (emptySt, false, "ERROR: Missing object type (vm|network)\n") ∧
    execute_command "destroy vm ghost" emptySt envAll ≠
      (emptySt, true, "OK: Destroyed VM ghost\n") := by
  decide

/-- Claim C9, amended: at the manager level vm_destroy on a name with no
    persisted record and no storage layout reports success without change
    (the stop attempt's failure is ignored, destroying a non-existent
    dataset is treated as success); the command layer, however, never
    reaches it: every `destroy vm <name>` is answered with
    "ERROR: Missing object type (vm|network)", the state unchanged. -/
theorem c9_amended_destroy_missing :
    (∀ (name : String) (st : St) (env : Env),
      lookupFile st.files (vmConfigPath name) = none →
      vmDatasetPath name ∉ st.datasets →
      env.zfsOk = true →
      vm_destroy name st env = (st, true)) ∧
    (∀ (name : String) (st : St) (env : Env),
      tokenClean name →
      execute_command ("destroy vm " ++ name) st env =
        (st, false, "ERROR: Missing object type (vm|network)\n")) := by
  constructor
  · intro name st env hrec hds hzfs
    have hload : xml_load_vm_config name st = none := by
      simp [xml_load_vm_config, hrec]
    have hstop : vm_stop name st env = (st, false) := by
      simp [vm_stop, hload]
    simp [vm_destroy, hstop, zfs_destroy_dataset, hzfs, hds]
  · intro name st env hclean
    unfold execute_command
    rw [tokenize_destroy_vm name hclean]
    show handle_destroy_command "destroy" ["vm", name] st env = _
    rw [handle_destroy_command_stuck "destroy" ["vm", name] st env (by decide)]

/-- Witness for the amended C9 theorem at the ghost name. -/
theorem c9_amended_destroy_missing_witness :
    vm_destroy "ghost" emptySt envAll = (emptySt, true) ∧
    execute_command "destroy vm ghost" emptySt envAll =
      (emptySt, false, "ERROR: Missing object type (vm|network)\n") :=
  ⟨c9_amended_destroy_missing.1 "ghost" emptySt envAll rfl (by decide) rfl,
   c9_amended_destroy_missing.2 "ghost" emptySt envAll (by decide)⟩

/-! ### Claim C1 -/

/-- network_set_fib is load-then-save (given a loaded record). -/
lemma network_set_fib_eq (n : String) (fib : Nat) (st : St) (env : Env)
    (nrec : NetworkDefT) (hload : xml_load_network_config n st = some nrec) :
    network_set_fib n fib st env =
      xml_save_network_config { nrec with fib_id := fib } st env := by
  have h1 : network_set_fib n fib st env =
      (match xml_load_network_config n st with
        | none => (st, false)
        | some network => xml_save_network_config { network with fib_id := fib } st env) := rfl
  rw [h1, hload]

/-- Claim C1 fails upstream of every bounds check: each argument-taking
    handler restarts strtok on the NUL-truncated buffer, so no command
    ever reaches a numeric validation, a manager call or a mutation.  The
    command layer never changes the state; an in-range `set` fails with a
    missing-argument error, and `create` fails likewise — the bounds
    checks in handle_set_vm_command and handle_set_network_command are
    dead code. -/
theorem c1_bounds_unreachable :
    (∀ (cmd : String) (st : St) (env : Env), (execute_command cmd st env).1 = st) ∧
    (∀ (n v : String) (st : St) (env : Env), tokenClean n → tokenClean v →
      execute_command ("set vm " ++ n ++ " cpu " ++ v) st env =
        (st, false, "ERROR: Missing VM name\n")) ∧
    (∀ (n v : String) (st : St) (env : Env), tokenClean n → tokenClean v →
      execute_command ("set network " ++ n ++ " fib " ++ v) st env =
        (st, false, "ERROR: Missing network name\n")) ∧
    (∀ (n c m : String) (st : St) (env : Env),
      tokenClean n → tokenClean c → tokenClean m →
      execute_command ("create vm " ++ n ++ " " ++ c ++ " " ++ m) st env =
        (st, false, "ERROR: Missing object type (vm|network)\n")) := by
  refine ⟨execute_command_inert, ?_, ?_, ?_⟩
  · intro n v st env hn hv
    unfold execute_command
    rw [tokenize_set_vm_cpu n v hn hv]
    show handle_set_vm_command "set" [n, "cpu", v] st env = _
    rw [handle_set_vm_command_stuck "set" [n, "cpu", v] st env (by decide)]
  · intro n v st env hn hv
    unfold execute_command
    rw [tokenize_set_network_fib n v hn hv]
    show handle_set_network_command "set" [n, "fib", v] st env = _
    rw [handle_set_network_command_stuck "set" [n, "fib", v] st env (by decide)]
  · intro n c m st env hn hc hm
    unfold execute_command
    rw [tokenize_create_vm n c m hn hc hm]
    show handle_create_command "create" ["vm", n, c, m] st env = _
    rw [handle_create_command_stuck "create" ["vm", n, c, m] st env (by decide)]

/-- Witness for the C1 divergence theorem at concrete commands. -/
theorem c1_bounds_unreachable_witness :
    (execute_command "list vm" stVmT envAll).1 = stVmT ∧
    execute_command "set vm t cpu 4" stVmT envAll =
      (stVmT, false, "ERROR: Missing VM name\n") ∧
    execute_command "set network n1 fib 7" stNetT envAll =
      (stNetT, false, "ERROR: Missing network name\n") ∧
    execute_command "create vm u 4 512" emptySt envAll =
      (emptySt, false, "ERROR: Missing object type (vm|network)\n") :=
  ⟨c1_bounds_unreachable.1 "list vm" stVmT envAll,
   c1_bounds_unreachable.2.1 "t" "4" stVmT envAll (by decide) (by decide),
   c1_bounds_unreachable.2.2.1 "n1" "7" stNetT envAll (by decide) (by decide),
   c1_bounds_unreachable.2.2.2 "u" "4" "512" emptySt envAll (by decide) (by decide)
     (by decide)⟩

/-! ### Claim C3 -/

/-- A world already holding VM "a" structurally (datasets and record). -/
def stVmA : St :=
  { datasets := [vmDatasetPath "a", vmDisksPath "a", vmStatePath "a"],
    files := [(vmConfigPath "a",
      .vmCfg { name := "a", cpu_cores := 4, memory_mb := 512, boot_device := "disk0",
               state := .stopped })],
    netdSent := [], spawned := [] }

/-- Claim C3 as stated is false: with a record for "a" already present,
    vm_create "a" succeeds (zfs_create_dataset treats an existing dataset
    as success) and replaces the stored record. -/
theorem c3_counterexample_create_existing :
    lookupFile stVmA.files (vmConfigPath "a") =
      some (.vmCfg { name := "a", cpu_cores := 4, memory_mb := 512,
                     boot_device := "disk0", state := .stopped }) ∧
    (vm_create "a" 2 1024 stVmA envAll).2 = true ∧
    xml_load_vm_config "a" (vm_create "a" 2 1024 stVmA envAll).1 =
      some { name := "a", cpu_cores := 2, memory_mb := 1024, boot_device := "disk0",
             state := .stopped } := by
  decide

/-- Claim C3, amended: creation over an existing record does not fail; it
    succeeds (existing datasets are treated as success by the storage
    layer) and the persisted record is replaced by a freshly initialized
    one with the requested cpu and memory, state Stopped. -/
theorem c3_amended_create_overwrites (name : String) (cpu : Int) (mem : Nat)
    (st : St) (env : Env) (vrec : VmConfigT)
    (_hexisting : xml_load_vm_config name st = some vrec)
    (hz : env.zfsOk = true) (hsv : env.saveVmOk = true)
    (hlen : name.data.length ≤ 63) :
    (vm_create name cpu mem st env).2 = true ∧
    xml_load_vm_config name (vm_create name cpu mem st env).1 =
      some { name := name, cpu_cores := cpu, memory_mb := mem, boot_device := "disk0",
             state := .stopped } :=
  vm_create_ok_spec name cpu mem st env hz hsv hlen

/-- Witness for the amended C3 theorem. -/
theorem c3_amended_create_overwrites_witness :
    (vm_create "a" 2 1024 stVmA envAll).2 = true ∧
    xml_load_vm_config "a" (vm_create "a" 2 1024 stVmA envAll).1 =
      some { name := "a", cpu_cores := 2, memory_mb := 1024, boot_device := "disk0",
             state := .stopped } :=
  c3_amended_create_overwrites "a" 2 1024 stVmA envAll
    { name := "a", cpu_cores := 4, memory_mb := 512, boot_device := "disk0",
      state := .stopped }
    (by decide) rfl rfl (by decide)

/-! ### Claim C2 -/

lemma xml_save_vm_config_fail (vm : VmConfigT) (st : St) (env : Env)
    (h : env.saveVmOk = false) : xml_save_vm_config vm st env = (st, false) := by
  unfold xml_save_vm_config
  rw [if_neg]
  rintro ⟨hA, -⟩
  rw [h] at hA
  cases hA

lemma xml_save_network_config_state (network : NetworkDefT) (st : St) (env : Env) :
    (xml_save_network_config network st env).1.datasets = st.datasets := by
  unfold xml_save_network_config
  split <;> rfl

lemma xml_save_network_success_flag (network : NetworkDefT) (st : St) (env : Env)
    (h : (xml_save_network_config network st env).2 = true) : env.saveNetOk = true := by
  unfold xml_save_network_config at h
  split at h
  next hc => exact hc.1
  next hc => exact absurd h (by simp)

lemma netd_configure_bridge_fail (b : String) (f : Nat) (st : St) (env : Env)
    (h : env.netdOk = false) : (netd_configure_bridge b f st env).2 = false := by
  simp only [netd_configure_bridge, netd_send_yang_config]
  split
  · rfl
  · exact h

lemma zfs_destroy_dataset_clears (d : String) (st : St) (env : Env)
    (hz : env.zfsOk = true) (hmem : d ∈ st.datasets) :
    ∀ d' ∈ (zfs_destroy_dataset d st env).1.datasets, underPath d d' = false := by
  unfold zfs_destroy_dataset
  rw [if_neg (by simp [hz]), if_pos hmem]
  intro d' hd'
  have h := List.mem_filter.mp hd'
  simpa using h.2

/-- Claim C2: creation is all-or-nothing.  If persistence fails after VM
    storage allocation, or persistence or bridge realization fails after
    network storage allocation, the create reports failure and no dataset
    of that entity's storage layout remains. -/
theorem c2_create_rollback :
    (∀ (name : String) (cpu : Int) (mem : Nat) (st : St) (env : Env),
      env.zfsOk = true → env.saveVmOk = false →
      (vm_create name cpu mem st env).2 = false ∧
      ∀ d ∈ (vm_create name cpu mem st env).1.datasets,
        underPath (vmDatasetPath name) d = false) ∧
    (∀ (name : String) (fib : Nat) (phys : Option String) (st : St) (env : Env),
      env.zfsOk = true → (env.saveNetOk = false ∨ env.netdOk = false) →
      (network_create name fib phys st env).2 = false ∧
      ∀ d ∈ (network_create name fib phys st env).1.datasets,
        underPath (netDatasetPath name) d = false) := by
  constructor
  · intro name cpu mem st env hz hsv
    obtain ⟨ha, hf, hn, hs, hmem1, hmem2⟩ := zfs_create_vm_structure_spec name st env hz
    simp only [vm_create]
    rw [if_neg (by simp [ha]), xml_save_vm_config_fail _ _ _ hsv]
    exact ⟨rfl, zfs_destroy_dataset_clears _ _ _ hz hmem1⟩
  · intro name fib phys st env hz hfail
    obtain ⟨ha, hf, hn, hs, hmem⟩ := zfs_create_network_structure_spec name st env hz
    simp only [network_create]
    rw [if_neg (by simp [ha])]
    generalize ({ name := strTake 63 name, ntype := .bridge, fib_id := fib,
                  physical_interface := (match phys with | some p => strTake 63 p | none => ""),
                  bridge_name := strTake 63 ("bridge_" ++ name) } : NetworkDefT) = rec0
    by_cases h2 : (xml_save_network_config rec0
        (zfs_create_network_structure name st env).1 env).2 = false
    · rw [if_pos h2]
      refine ⟨rfl, zfs_destroy_dataset_clears _ _ _ hz ?_⟩
      rw [xml_save_network_config_state]
      exact hmem
    · rw [if_neg h2]
      have hsv : env.saveNetOk = true := by
        refine xml_save_network_success_flag rec0
          (zfs_create_network_structure name st env).1 env ?_
        cases hx : (xml_save_network_config rec0
            (zfs_create_network_structure name st env).1 env).2
        · exact absurd hx h2
        · rfl
      have hnd : env.netdOk = false := by
        rcases hfail with h | h
        · rw [hsv] at h
          cases h
        · exact h
      rw [if_pos (netd_configure_bridge_fail _ _ _ _ hnd)]
      refine ⟨rfl, zfs_destroy_dataset_clears _ _ _ hz ?_⟩
      rw [netd_configure_bridge_datasets, xml_save_network_config_state]
      exact hmem

/-- Environment where persistence fails. -/
def envNoSave : Env := { envAll with saveVmOk := false, saveNetOk := false }

/-- Environment where the network daemon is down. -/
def envNoNetd : Env := { envAll with netdOk := false }

/-- Witness for C2 at concrete failing creates. -/
theorem c2_create_rollback_witness :
    (vm_create "w" 2 128 emptySt envNoSave).2 = false ∧
    vmDatasetPath "w" ∉ (vm_create "w" 2 128 emptySt envNoSave).1.datasets ∧
    (network_create "m" 5 none emptySt envNoNetd).2 = false ∧
    netDatasetPath "m" ∉ (network_create "m" 5 none emptySt envNoNetd).1.datasets := by
  obtain ⟨h1, h2⟩ := c2_create_rollback.1 "w" 2 128 emptySt envNoSave rfl rfl
  obtain ⟨h3, h4⟩ := c2_create_rollback.2 "m" 5 none emptySt envNoNetd rfl (Or.inr rfl)
  refine ⟨h1, fun hm => ?_, h3, fun hm => ?_⟩
  · have hu := h2 _ hm
    simp [underPath] at hu
  · have hu := h4 _ hm
    simp [underPath] at hu

/-! ### Claim C5 -/

lemma netd_remove_bridge_fail (b : String) (st : St) (env : Env)
    (h : env.netdOk = false) : (netd_remove_bridge b st env).2 = false := by
  simp only [netd_remove_bridge, netd_send_yang_config]
  split
  · rfl
  · exact h

lemma netd_remove_bridge_files (b : String) (st : St) (env : Env) :
    (netd_remove_bridge b st env).1.files = st.files := by
  simp only [netd_remove_bridge, netd_send_yang_config]
  split <;> rfl

lemma netd_remove_bridge_datasets (b : String) (st : St) (env : Env) :
    (netd_remove_bridge b st env).1.datasets = st.datasets := by
  simp only [netd_remove_bridge, netd_send_yang_config]
  split <;> rfl

set_option maxHeartbeats 1000000 in
/-- Claim C5: when the record loads but removing the realized bridge on
    the network daemon fails, network_destroy reports an error and leaves
    every file (including the persisted record) and every dataset (the
    storage layout) intact. -/
theorem c5_destroy_conservative (name : String) (st : St) (env : Env)
    (nrec : NetworkDefT)
    (hload : xml_load_network_config name st = some nrec)
    (hnd : env.netdOk = false) :
    (network_destroy name st env).2 = false ∧
    (network_destroy name st env).1.files = st.files ∧
    (network_destroy name st env).1.datasets = st.datasets := by
  have h1 : network_destroy name st env =
      (match xml_load_network_config name st with
        | none => (st, false)
        | some network =>
          if (netd_remove_bridge network.bridge_name st env).2 = false then
            ((netd_remove_bridge network.bridge_name st env).1, false)
          else zfs_destroy_dataset (netDatasetPath name)
            (netd_remove_bridge network.bridge_name st env).1 env) := rfl
  have h2 : network_destroy name st env =
      ((netd_remove_bridge nrec.bridge_name st env).1, false) := by
    rw [h1, hload]
    show (if (netd_remove_bridge nrec.bridge_name st env).2 = false then
        ((netd_remove_bridge nrec.bridge_name st env).1, false)
      else zfs_destroy_dataset (netDatasetPath name)
        (netd_remove_bridge nrec.bridge_name st env).1 env) = _
    rw [if_pos (netd_remove_bridge_fail _ _ _ hnd)]
  rw [h2]
  exact ⟨rfl, netd_remove_bridge_files _ _ _, netd_remove_bridge_datasets _ _ _⟩

/-- Witness for C5. -/
theorem c5_destroy_conservative_witness :
    (network_destroy "n1" stNetT envNoNetd).2 = false ∧
    (network_destroy "n1" stNetT envNoNetd).1.files = stNetT.files ∧
    (network_destroy "n1" stNetT envNoNetd).1.datasets = stNetT.datasets :=
  c5_destroy_conservative "n1" stNetT envNoNetd nrecT (by decide) rfl

/-! ### Claim C6 -/

/-- A 57-character network name. -/
def name57 : String := ⟨List.replicate 57 'a'⟩

/-- The record network_create persists for name57 (bridge name truncated
    by the snprintf into the 64-byte field). -/
def rec57 : NetworkDefT :=
  { name := name57, ntype := .bridge, fib_id := 0, physical_interface := "",
    bridge_name := strTake 63 ("bridge_" ++ name57) }

set_option maxRecDepth 16384 in
set_option maxHeartbeats 2000000 in
/-- Claim C6 as stated is false: for a 57-character name the create
    succeeds but the persisted bridge_name is the 63-character truncation
    of "bridge_" ++ name, not "bridge_" ++ name itself (64 characters). -/
theorem c6_counterexample_bridge_name_truncated :
    (network_create name57 0 none emptySt envAll).2 = true ∧
    lookupFile (network_create name57 0 none emptySt envAll).1.files
        (netConfigPath name57) = some (.netCfg rec57) ∧
    rec57.bridge_name ≠ "bridge_" ++ name57 := by
  decide

/-- Claim C6, amended: for every network created with a name of at most
    63 characters, the persisted bridge_name equals the first 63
    characters of "bridge_" concatenated with the name; it equals the
    full concatenation exactly when the name has at most 56 characters
    (so that the result fits the 64-byte field). -/
theorem c6_amended_bridge_name (name : String) (fib : Nat) (phys : Option String)
    (st : St) (env : Env) (hlen : name.data.length ≤ 63)
    (hok : (network_create name fib phys st env).2 = true) :
    ∃ nrec : NetworkDefT,
      xml_load_network_config name (network_create name fib phys st env).1 = some nrec ∧
      nrec.bridge_name = strTake 63 ("bridge_" ++ name) ∧
      (name.data.length ≤ 56 → nrec.bridge_name = "bridge_" ++ name) := by
  refine ⟨_, network_create_success_load name fib phys st env hlen hok, rfl, ?_⟩
  intro h56
  show strTake 63 ("bridge_" ++ name) = "bridge_" ++ name
  unfold strTake
  have hlen7 : ("bridge_" ++ name).data.length ≤ 63 := by
    rw [String.data_append, List.length_append]
    have h7 : ("bridge_" : String).data.length = 7 := rfl
    omega
  rw [List.take_of_length_le hlen7]

/-- Witness for the amended C6 theorem. -/
theorem c6_amended_bridge_name_witness :
    ∃ nrec : NetworkDefT,
      xml_load_network_config "n1" (network_create "n1" 5 none emptySt envAll).1 =
        some nrec ∧
      nrec.bridge_name = strTake 63 ("bridge_" ++ "n1") ∧
      ("n1".data.length ≤ 56 → nrec.bridge_name = "bridge_" ++ "n1") :=
  c6_amended_bridge_name "n1" 5 none emptySt envAll (by decide) (by decide)

/-! ### Claim C10 -/

/-- network_set_physical_interface is load-then-save (given a record). -/
lemma network_set_physical_interface_eq (n v : String) (st : St) (env : Env)
    (nrec : NetworkDefT) (hload : xml_load_network_config n st = some nrec) :
    network_set_physical_interface n v st env =
      xml_save_network_config { nrec with physical_interface := strTake 63 v } st env := by
  have h1 : network_set_physical_interface n v st env =
      (match xml_load_network_config n st with
        | none => (st, false)
        | some network =>
          xml_save_network_config { network with physical_interface := strTake 63 v }
            st env) := rfl
  rw [h1, hload]

/-- Claim C10: the network property-set operations are record-only with a
    minimal frame.  Each returns success and a state identical to the
    input except that the persisted record for this network is replaced by
    the old record with only the one field changed; datasets, the netd
    exchange log, and spawned processes are untouched (in particular, no
    exchange with the network daemon happens). -/
theorem c10_set_record_only (name : String) (st : St) (env : Env)
    (nrec : NetworkDefT)
    (hload : xml_load_network_config name st = some nrec) (hname : nrec.name = name)
    (hsave : env.saveNetOk = true) (hds : netDatasetPath name ∈ st.datasets) :
    (∀ fib : Nat, network_set_fib name fib st env =
      ({ st with files := writeFile st.files (netConfigPath name) (.netCfg { nrec with fib_id := fib }) }, true)) ∧
    (∀ v : String, network_set_physical_interface name v st env =
      ({ st with files := writeFile st.files (netConfigPath name) (.netCfg { nrec with physical_interface := strTake 63 v }) }, true)) := by
  constructor
  · intro fib
    rw [network_set_fib_eq name fib st env nrec hload,
      xml_save_network_config_ok _ _ _ hsave (by simp only [hname]; exact hds)]
    simp [hname]
  · intro v
    rw [network_set_physical_interface_eq name v st env nrec hload,
      xml_save_network_config_ok _ _ _ hsave (by simp only [hname]; exact hds)]
    simp [hname]

/-- Witness for C10. -/
theorem c10_set_record_only_witness :
    network_set_fib "n1" 9 stNetT envAll =
      ({ stNetT with files := writeFile stNetT.files (netConfigPath "n1") (.netCfg { nrecT with fib_id := 9 }) }, true) ∧
    network_set_physical_interface "n1" "em0" stNetT envAll =
      ({ stNetT with files := writeFile stNetT.files (netConfigPath "n1") (.netCfg { nrecT with physical_interface := strTake 63 "em0" }) }, true) := by
  obtain ⟨hA, hB⟩ := c10_set_record_only "n1" stNetT envAll nrecT (by decide) rfl rfl
    (by decide)
  exact ⟨hA 9, hB "em0"⟩


/-! ### Claim C4: start/stop idempotence (vm_manager.c lines 120-268) -/

lemma lookupFile_erase_ne (files : List (String × HvFileT)) (k key : String)
    (h : k ≠ key) :
    lookupFile (eraseFile files k) key = lookupFile files key := by
  induction files with
  | nil => rfl
  | cons kv rest ih =>
    obtain ⟨k1, f1⟩ := kv
    by_cases hk : k1 = k
    · have h1 : eraseFile ((k1, f1) :: rest) k = eraseFile rest k := by
        simp [eraseFile, hk]
      have hne : k1 ≠ key := by rw [hk]; exact h
      have h2 : lookupFile ((k1, f1) :: rest) key = lookupFile rest key := by
        simp [lookupFile, hne]
      rw [h1, h2, ih]
    · have h1 : eraseFile ((k1, f1) :: rest) k = (k1, f1) :: eraseFile rest k := by
        simp [eraseFile, hk]
      by_cases hkey : k1 = key
      · rw [h1]
        simp [lookupFile, hkey]
      · rw [h1]
        simp [lookupFile, hkey, ih]

lemma lookupFile_erase_self (files : List (String × HvFileT)) (k : String) :
    lookupFile (eraseFile files k) k = none := by
  induction files with
  | nil => rfl
  | cons kv rest ih =>
    obtain ⟨k1, f1⟩ := kv
    by_cases hk : k1 = k
    · have h1 : eraseFile ((k1, f1) :: rest) k = eraseFile rest k := by
        simp [eraseFile, hk]
      rw [h1, ih]
    · have h1 : eraseFile ((k1, f1) :: rest) k = (k1, f1) :: eraseFile rest k := by
        simp [eraseFile, hk]
      rw [h1]
      simp [lookupFile, hk, ih]

lemma lookupFile_write_ne (files : List (String × HvFileT)) (k key : String)
    (f : HvFileT) (h : k ≠ key) :
    lookupFile (writeFile files k f) key = lookupFile files key := by
  show (if k = key then some f else lookupFile (eraseFile files k) key) = _
  rw [if_neg h, lookupFile_erase_ne files k key h]

/-- The state/pid file never collides with the VM record file. -/
lemma vmPidPath_ne_vmConfigPath (name : String) :
    vmPidPath name ≠ vmConfigPath name := by
  intro h
  have hd : (vmPidPath name).data = (vmConfigPath name).data := congrArg String.data h
  simp only [vmPidPath, vmStatePath, vmConfigPath, vmDatasetPath, VM_BASE_PATH,
    String.data_append, List.append_assoc] at hd
  have h1 := List.append_cancel_left hd
  have h2 := List.append_cancel_left h1
  have h3 := List.append_cancel_left h2
  exact absurd h3 (by decide)

lemma xml_load_vm_config_of_lookup (name : String) (st : St) (v : VmConfigT)
    (h : lookupFile st.files (vmConfigPath name) = some (.vmCfg v)) :
    xml_load_vm_config name st = some v := by
  unfold xml_load_vm_config
  rw [h]

/-- File map produced by a successful fresh vm_start over `st`. -/
def startedFiles (vrec : VmConfigT) (st : St) (pid : Nat) :
    List (String × HvFileT) :=
  writeFile
    (writeFile st.files (vmConfigPath vrec.name)
      (.vmCfg { vrec with state := .running }))
    (vmPidPath vrec.name) (.pidFile pid)

/-- File map produced by a successful vm_stop of a running VM over `st`. -/
def stoppedFiles (vrec : VmConfigT) (st : St) : List (String × HvFileT) :=
  eraseFile
    (writeFile st.files (vmConfigPath vrec.name)
      (.vmCfg { vrec with state := .stopped }))
    (vmPidPath vrec.name)

lemma lookupFile_startedFiles_cfg (vrec : VmConfigT) (st : St) (pid : Nat) :
    lookupFile (startedFiles vrec st pid) (vmConfigPath vrec.name) =
      some (.vmCfg { vrec with state := .running }) := by
  unfold startedFiles
  rw [lookupFile_write_ne _ _ _ _ (vmPidPath_ne_vmConfigPath vrec.name),
    lookupFile_writeFile]

lemma lookupFile_startedFiles_pid (vrec : VmConfigT) (st : St) (pid : Nat) :
    lookupFile (startedFiles vrec st pid) (vmPidPath vrec.name) =
      some (.pidFile pid) := by
  unfold startedFiles
  rw [lookupFile_writeFile]

lemma lookupFile_stoppedFiles_cfg (vrec : VmConfigT) (st : St) :
    lookupFile (stoppedFiles vrec st) (vmConfigPath vrec.name) =
      some (.vmCfg { vrec with state := .stopped }) := by
  unfold stoppedFiles
  rw [lookupFile_erase_ne _ _ _ (vmPidPath_ne_vmConfigPath vrec.name),
    lookupFile_writeFile]

lemma lookupFile_stoppedFiles_pid (vrec : VmConfigT) (st : St) :
    lookupFile (stoppedFiles vrec st) (vmPidPath vrec.name) = none := by
  unfold stoppedFiles
  exact lookupFile_erase_self _ _

/-- vm_start once the load result is known (source lines 120-184). -/
lemma vm_start_loaded (name : String) (st : St) (env : Env) (vm : VmConfigT)
    (hload : xml_load_vm_config name st = some vm) :
    vm_start name st env =
      (if vm.state = VmStateT.running then (st, true)
       else if env.vmmOpenOk = false then (st, false)
       else if env.forkOk = false then (st, false)
       else (writePidFile name env.nextPid
         (xml_save_vm_config { vm with state := VmStateT.running }
           { st with spawned := st.spawned ++ [env.nextPid] } env).1, true)) := by
  unfold vm_start
  rw [hload]

/-- vm_stop once the load result is known (source lines 191-268). -/
lemma vm_stop_loaded (name : String) (st : St) (env : Env) (vm : VmConfigT)
    (hload : xml_load_vm_config name st = some vm) :
    vm_stop name st env =
      (if vm.state ≠ VmStateT.running then (st, true)
       else
         match lookupFile st.files (vmPidPath name) with
         | some (.pidFile _) =>
           if (if env.vmmOpenOk then (if env.suspendOk then true else env.killOk)
               else env.killOk) = false then (st, false)
           else
             ({ (xml_save_vm_config { vm with state := VmStateT.stopped } st env).1 with
                 files := eraseFile
                   (xml_save_vm_config { vm with state := VmStateT.stopped } st env).1.files
                   (vmPidPath name) }, true)
         | _ => (st, false)) := by
  unfold vm_stop
  rw [hload]

/-- Claim C4: start and stop are idempotent.  For a well-formed existing VM
    (record loads, storage layout present, a pid file exactly when the record
    says Running) with cooperative collaborators, the first start succeeds,
    the second start is a successful no-op (same state, nothing new spawned),
    and one tracked pid remains; the first stop succeeds, the second stop is
    a successful no-op, and no tracked pid remains. -/
theorem c4_start_stop_idempotent (name : String) (st : St) (env : Env)
    (vrec : VmConfigT)
    (hload : xml_load_vm_config name st = some vrec)
    (hname : vrec.name = name)
    (hds : vmDatasetPath name ∈ st.datasets)
    (hsd : vmStatePath name ∈ st.datasets)
    (hsv : env.saveVmOk = true) (hvm : env.vmmOpenOk = true)
    (hfk : env.forkOk = true) (hsp : env.suspendOk = true)
    (hpidR : vrec.state = VmStateT.running →
      ∃ p, lookupFile st.files (vmPidPath name) = some (.pidFile p))
    (hpidN : vrec.state ≠ VmStateT.running →
      lookupFile st.files (vmPidPath name) = none) :
    ((vm_start name st env).2 = true ∧
     vm_start name (vm_start name st env).1 env = ((vm_start name st env).1, true) ∧
     (vm_start name (vm_start name st env).1 env).1.spawned =
       (vm_start name st env).1.spawned ∧
     (∃ p, lookupFile (vm_start name st env).1.files (vmPidPath name) =
       some (.pidFile p))) ∧
    ((vm_stop name st env).2 = true ∧
     vm_stop name (vm_stop name st env).1 env = ((vm_stop name st env).1, true) ∧
     (vm_stop name (vm_stop name st env).1 env).1.spawned =
       (vm_stop name st env).1.spawned ∧
     lookupFile (vm_stop name st env).1.files (vmPidPath name) = none) := by
  subst hname
  constructor
  · by_cases hrun : vrec.state = VmStateT.running
    · have h1 : vm_start vrec.name st env = (st, true) := by
        rw [vm_start_loaded vrec.name st env vrec hload, if_pos hrun]
      have h2 : vm_start vrec.name (vm_start vrec.name st env).1 env =
          ((vm_start vrec.name st env).1, true) := by
        rw [h1]
        exact h1
      refine ⟨by rw [h1], h2, by rw [h2], ?_⟩
      rw [h1]
      exact hpidR hrun
    · have hstep : vm_start vrec.name st env =
          (writePidFile vrec.name env.nextPid
            { st with
                spawned := st.spawned ++ [env.nextPid],
                files := writeFile st.files (vmConfigPath vrec.name)
                  (HvFileT.vmCfg { vrec with state := VmStateT.running }) }, true) := by
        rw [vm_start_loaded vrec.name st env vrec hload, if_neg hrun,
          if_neg (by simp [hvm]), if_neg (by simp [hfk]),
          xml_save_vm_config_ok { vrec with state := VmStateT.running }
            { st with spawned := st.spawned ++ [env.nextPid] } env hsv hds]
      have hpw : writePidFile vrec.name env.nextPid
          { st with
              spawned := st.spawned ++ [env.nextPid],
              files := writeFile st.files (vmConfigPath vrec.name)
                (HvFileT.vmCfg { vrec with state := VmStateT.running }) } =
          { st with
              spawned := st.spawned ++ [env.nextPid],
              files := startedFiles vrec st env.nextPid } := by
        unfold writePidFile
        rw [if_pos hsd]
        rfl
      have h1 : vm_start vrec.name st env =
          ({ st with
               spawned := st.spawned ++ [env.nextPid],
               files := startedFiles vrec st env.nextPid }, true) := by
        rw [hstep, hpw]
      have hload2 : xml_load_vm_config vrec.name
          { st with
              spawned := st.spawned ++ [env.nextPid],
              files := startedFiles vrec st env.nextPid } =
          some { vrec with state := VmStateT.running } :=
        xml_load_vm_config_of_lookup _ _ _ (lookupFile_startedFiles_cfg vrec st env.nextPid)
      have h2 : vm_start vrec.name (vm_start vrec.name st env).1 env =
          ((vm_start vrec.name st env).1, true) := by
        rw [h1, vm_start_loaded _ _ _ _ hload2,
          if_pos (show ({ vrec with state := VmStateT.running } : VmConfigT).state =
            VmStateT.running from rfl)]
      refine ⟨by rw [h1], h2, by rw [h2], ⟨env.nextPid, ?_⟩⟩
      rw [h1]
      exact lookupFile_startedFiles_pid vrec st env.nextPid
  · by_cases hrun : vrec.state = VmStateT.running
    · obtain ⟨p0, hp0⟩ := hpidR hrun
      have hstep : vm_stop vrec.name st env =
          ({ st with files := stoppedFiles vrec st }, true) := by
        rw [vm_stop_loaded vrec.name st env vrec hload,
          if_neg (not_not_intro hrun), hp0]
        show (if (if env.vmmOpenOk then (if env.suspendOk then true else env.killOk)
            else env.killOk) = false then (st, false)
          else ({ (xml_save_vm_config { vrec with state := VmStateT.stopped } st env).1 with
              files := eraseFile
                (xml_save_vm_config { vrec with state := VmStateT.stopped } st env).1.files
                (vmPidPath vrec.name) }, true)) = _
        rw [if_neg (by simp [hvm, hsp]),
          xml_save_vm_config_ok { vrec with state := VmStateT.stopped } st env hsv hds]
        rfl
      have hload2 : xml_load_vm_config vrec.name
          { st with files := stoppedFiles vrec st } =
          some { vrec with state := VmStateT.stopped } :=
        xml_load_vm_config_of_lookup _ _ _ (lookupFile_stoppedFiles_cfg vrec st)
      have h2 : vm_stop vrec.name (vm_stop vrec.name st env).1 env =
          ((vm_stop vrec.name st env).1, true) := by
        rw [hstep, vm_stop_loaded _ _ _ _ hload2,
          if_pos (show ({ vrec with state := VmStateT.stopped } : VmConfigT).state ≠
            VmStateT.running from fun hcon => nomatch hcon)]
      refine ⟨by rw [hstep], h2, by rw [h2], ?_⟩
      rw [hstep]
      exact lookupFile_stoppedFiles_pid vrec st
    · have hstep : vm_stop vrec.name st env = (st, true) := by
        rw [vm_stop_loaded vrec.name st env vrec hload, if_pos hrun]
      have h2 : vm_stop vrec.name (vm_stop vrec.name st env).1 env =
          ((vm_stop vrec.name st env).1, true) := by
        rw [hstep]
        exact hstep
      refine ⟨by rw [hstep], h2, by rw [h2], ?_⟩
      rw [hstep]
      exact hpidN hrun

/-- Witness for C4 on the freshly created VM "t". -/
theorem c4_start_stop_idempotent_witness :
    ((vm_start "t" stVmT envAll).2 = true ∧
     vm_start "t" (vm_start "t" stVmT envAll).1 envAll =
       ((vm_start "t" stVmT envAll).1, true) ∧
     (vm_start "t" (vm_start "t" stVmT envAll).1 envAll).1.spawned =
       (vm_start "t" stVmT envAll).1.spawned ∧
     (∃ p, lookupFile (vm_start "t" stVmT envAll).1.files (vmPidPath "t") =
       some (.pidFile p))) ∧
    ((vm_stop "t" stVmT envAll).2 = true ∧
     vm_stop "t" (vm_stop "t" stVmT envAll).1 envAll =
       ((vm_stop "t" stVmT envAll).1, true) ∧
     (vm_stop "t" (vm_stop "t" stVmT envAll).1 envAll).1.spawned =
       (vm_stop "t" stVmT envAll).1.spawned ∧
     lookupFile (vm_stop "t" stVmT envAll).1.files (vmPidPath "t") = none) :=
  c4_start_stop_idempotent "t" stVmT envAll vrecT (by decide) (by decide)
    (by decide) (by decide) rfl rfl rfl rfl
    (fun h => absurd h (by decide)) (fun _ => by decide)


end Hv
